import Mathlib

/-!
Verification development for the repository
`tensorflow_end2end_speech_recognition` (three source files:
`experiments/csj/training/train_multitask_ctc.py`,
`experiments/timit/training/train_attention.py`,
`models/ctc/lstm_ctc.py`).

The Python scripts are shallowly embedded: the training loop becomes a
trace-producing recursion over a step counter, file-system effects become
events, the YAML config becomes a two-level association list, and Python
exceptions become `Except` errors.  TensorFlow quantities that only exist
at run time (losses, label error rates) are modelled symbolically as
`(series, step)` tags, since the scripts only move them around.
-/

set_option linter.unusedVariables false

/-- Python exceptions that the two training scripts can raise. -/
inductive PyError where
  | keyError (key : String)
  | typeError
  | valueError (msg : String)
  | nameError (name : String)
  | attributeError
  deriving DecidableEq, Repr

/-- A scalar YAML value (the configs in this repo hold strings and numbers). -/
inductive Leaf where
  | str (s : String)
  | num (q : ℚ)
  deriving DecidableEq, Repr

/-- A YAML section: an association list of scalar values
(`corpus`, `feature` and `param` in the configs). -/
abbrev Sect : Type := List (String × Leaf)

/-- A top-level YAML value: either a scalar (like `model_name`) or a section. -/
inductive TopVal where
  | leaf (l : Leaf)
  | sect (m : Sect)
  deriving DecidableEq, Repr

/-- A whole YAML config file: a two-level association list. -/
abbrev Config : Type := List (String × TopVal)

/-- Python dict subscription `m[k]`: the value when the key is present,
a `KeyError` otherwise. -/
def pyLookup {α : Type} (m : List (String × α)) (k : String) : Except PyError α :=
  match m.find? (fun p => p.1 == k) with
  | some p => .ok p.2
  | none => .error (.keyError k)

/-- `True` when the key is present in the association list. -/
def hasKey {α : Type} (m : List (String × α)) (k : String) : Bool :=
  (m.find? (fun p => p.1 == k)).isSome

/-- Using a top-level value as a mapping (`config['corpus'][...]`):
a `TypeError` when it is a scalar. -/
def asSect (v : TopVal) : Except PyError Sect :=
  match v with
  | .sect m => .ok m
  | .leaf _ => .error .typeError

/-- A context that needs a `str` (string concatenation, `os.path.join`). -/
def leafStr (l : Leaf) : Except PyError String :=
  match l with
  | .str s => .ok s
  | .num _ => .error .typeError

/-- Python `str(x)`, total. -/
def pyStr (l : Leaf) : String :=
  match l with
  | .str s => s
  | .num q => toString q

/-- Python `x == "lit"` where `x` came from the config: equality testing a
value against a string literal never raises, it is `False` across types. -/
def leafEqStr (l : Leaf) (s : String) : Bool :=
  match l with
  | .str t => t == s
  | .num _ => false

/-- Python `x != 0` for a config value (a non-number compares unequal). -/
def leafNeZero (l : Leaf) : Bool :=
  match l with
  | .num q => decide (q ≠ 0)
  | .str _ => true

/-- Python `x != 1` for a config value. -/
def leafNeOne (l : Leaf) : Bool :=
  match l with
  | .num q => decide (q ≠ 1)
  | .str _ => true

/-- A context that needs a non-negative integer (`batch_size`, `num_epoch`
feed `range`/indexing arithmetic inside `do_train`). -/
def asNat (l : Leaf) : Except PyError ℕ :=
  match l with
  | .num q => if q.den = 1 ∧ 0 ≤ q.num then .ok q.num.toNat else .error .typeError
  | .str _ => .error .typeError

/-- A context that needs a number (`feature['input_size'] * feature['num_stack']`). -/
def asNum (l : Leaf) : Except PyError ℚ :=
  match l with
  | .num q => .ok q
  | .str _ => .error .typeError

/-- `config['model_name'].upper()`: an `AttributeError` unless the value is a
string. -/
def topUpper (v : TopVal) : Except PyError String :=
  match v with
  | .leaf (.str s) => .ok s.toUpper
  | _ => .error .attributeError

/-- Referencing a Python local that the `if/elif` chain may have left
unbound (`output_size_main` etc.): a `NameError` when unbound. -/
def requireBound (name : String) (v : Option ℕ) : Except PyError ℕ :=
  match v with
  | some n => .ok n
  | none => .error (.nameError name)

/-- The metric series a training script accumulates into its CSV lists. -/
inductive SeriesKind where
  | lossTrain
  | lossDev
  | lerMainTrain
  | lerMainDev
  | lerSecondTrain
  | lerSecondDev
  | lerTrain
  | lerDev
  deriving DecidableEq, Repr

/-- A run-time metric value, identified symbolically by the series it was
read from and the step at which it was computed. -/
abbrev MetricVal : Type := SeriesKind × ℕ

/-- Observable actions of a training-script run, in program order. -/
inductive Event where
  | makeModelDir
  | deleteModelDir
  | setProcTitle
  | copyConfig (fname : String)
  | redirectStdout (fname : String)
  | trainStep (step : ℕ)
  | logMetrics (step : ℕ)
  | saveCheckpoint (globalStep : ℕ)
  | evalDev (epoch : ℕ)
  | evalTest (epoch : ℕ)
  | saveLossCsv (steps : List ℕ) (a b : List MetricVal)
  | saveLerCsv (steps : List ℕ) (a b : List MetricVal)
  | writeComplete
  deriving DecidableEq, Repr

/-- State of the file system that `main` consults: whether the model output
directory already exists, and whether it contains a `complete.txt`. -/
structure FS where
  dirExists : Bool
  completeExists : Bool
  deriving DecidableEq, Repr

/-!
## The training loop arithmetic (identical in both scripts)

```
iter_per_epoch = int(train_data.data_num / batch_size)
if (train_data.data_num / batch_size) != int(train_data.data_num / batch_size):
    iter_per_epoch += 1
max_steps = iter_per_epoch * epoch_num
```
`/` is Python 3 true division; on the scripts' non-negative integers `int`
truncation is the floor, i.e. `ℕ`-division.
-/

/-- `iter_per_epoch` as computed by both `do_train`s (exact arithmetic). -/
def iterPerEpoch (dataNum batchSize : ℕ) : ℕ :=
  let intPart := dataNum / batchSize
  if (dataNum : ℚ) / (batchSize : ℚ) ≠ (intPart : ℚ) then intPart + 1 else intPart

/-- `if (step + 1) % iter_per_epoch == 0 or (step + 1) == max_steps`,
the per-step checkpoint/evaluation guard of both scripts. -/
def saveCond (ipe maxSteps step : ℕ) : Bool :=
  decide ((step + 1) % ipe = 0) || decide (step + 1 = maxSteps)

/-- `epoch = (step + 1) // iter_per_epoch`. -/
def epochOf (ipe step : ℕ) : ℕ :=
  (step + 1) / ipe

/-- The steps of a run at which the metric-logging block runs
(`if (step + 1) % interval == 0`, interval 200 in the CSJ script and 10 in
the TIMIT script); used to characterise the CSV accumulator lists. -/
def loggedSteps (interval n : ℕ) : List ℕ :=
  (List.range n).filter (fun s => (s + 1) % interval = 0)

/-!
## CSJ `train_multitask_ctc.do_train`
-/

/-- The CSV accumulator lists of the CSJ script
(`csv_steps, csv_loss_train, ..., csv_ler_second_dev`). -/
structure CsjCsv where
  steps : List ℕ
  lossTrain : List MetricVal
  lossDev : List MetricVal
  lerMainTrain : List MetricVal
  lerMainDev : List MetricVal
  lerSecondTrain : List MetricVal
  lerSecondDev : List MetricVal
  deriving DecidableEq, Repr

/-- Empty accumulators (line 145-147 of the CSJ script). -/
def csjCsvInit : CsjCsv :=
  ⟨[], [], [], [], [], [], []⟩

/-- One loop iteration's effect on the CSV lists: inside
`if (step + 1) % 200 == 0` every list gets the metric computed at this step
appended (lines 199-223). -/
def csjCsvStep (step : ℕ) (st : CsjCsv) : CsjCsv :=
  if (step + 1) % 200 = 0 then
    { steps := st.steps ++ [step]
      lossTrain := st.lossTrain ++ [(SeriesKind.lossTrain, step)]
      lossDev := st.lossDev ++ [(SeriesKind.lossDev, step)]
      lerMainTrain := st.lerMainTrain ++ [(SeriesKind.lerMainTrain, step)]
      lerMainDev := st.lerMainDev ++ [(SeriesKind.lerMainDev, step)]
      lerSecondTrain := st.lerSecondTrain ++ [(SeriesKind.lerSecondTrain, step)]
      lerSecondDev := st.lerSecondDev ++ [(SeriesKind.lerSecondDev, step)] }
  else st

/-- CSV lists after the first `n` steps of the CSJ loop. -/
def csjCsvAfter : ℕ → CsjCsv
  | 0 => csjCsvInit
  | n + 1 => csjCsvStep n (csjCsvAfter n)

/-- Events of one CSJ loop iteration (loop body, lines 171-407):
a parameter update, the 200-step metric logging, and the per-epoch
checkpoint with a dev evaluation only from epoch 5 on (`if epoch >= 5`). -/
def csjStepEvents (ipe maxSteps step : ℕ) : List Event :=
  [Event.trainStep step]
    ++ (if (step + 1) % 200 = 0 then [Event.logMetrics step] else [])
    ++ (if saveCond ipe maxSteps step then
          [Event.saveCheckpoint (epochOf ipe step)]
            ++ (if 5 ≤ epochOf ipe step then [Event.evalDev (epochOf ipe step)] else [])
        else [])

/-- Events of the first `n` iterations of the CSJ loop. -/
def csjLoopEvents (ipe maxSteps : ℕ) : ℕ → List Event
  | 0 => []
  | n + 1 => csjLoopEvents ipe maxSteps n ++ csjStepEvents ipe maxSteps n

/-- The CSV export calls after the CSJ loop (lines 412-418), with the exact
argument lists the source passes:
`save_loss(csv_steps, csv_loss_train, csv_loss_dev)`,
`save_ler(csv_steps, csv_ler_main_train, csv_ler_second_dev)`,
`save_ler(csv_steps, csv_ler_second_train, csv_ler_second_dev)`. -/
def csjSaveCalls (maxSteps : ℕ) : List Event :=
  let st := csjCsvAfter maxSteps
  [Event.saveLossCsv st.steps st.lossTrain st.lossDev,
   Event.saveLerCsv st.steps st.lerMainTrain st.lerSecondDev,
   Event.saveLerCsv st.steps st.lerSecondTrain st.lerSecondDev]

/-- The whole event trace of a completed `do_train` of the CSJ script:
the full loop, the CSV exports, then `complete.txt` (lines 162-422). -/
def csjDoTrainTrace (dataNum batchSize epochNum : ℕ) : List Event :=
  let ipe := iterPerEpoch dataNum batchSize
  let maxSteps := ipe * epochNum
  csjLoopEvents ipe maxSteps maxSteps ++ csjSaveCalls maxSteps ++ [Event.writeComplete]

/-!
## TIMIT `train_attention.do_train`
-/

/-- The CSV accumulator lists of the TIMIT script (line 139-140). -/
structure TimitCsv where
  steps : List ℕ
  lossTrain : List MetricVal
  lossDev : List MetricVal
  lerTrain : List MetricVal
  lerDev : List MetricVal
  deriving DecidableEq, Repr

/-- Empty accumulators. -/
def timitCsvInit : TimitCsv :=
  ⟨[], [], [], [], []⟩

/-- One loop iteration's effect on the TIMIT CSV lists, inside
`if (step + 1) % 10 == 0` (lines 189-231). -/
def timitCsvStep (step : ℕ) (st : TimitCsv) : TimitCsv :=
  if (step + 1) % 10 = 0 then
    { steps := st.steps ++ [step]
      lossTrain := st.lossTrain ++ [(SeriesKind.lossTrain, step)]
      lossDev := st.lossDev ++ [(SeriesKind.lossDev, step)]
      lerTrain := st.lerTrain ++ [(SeriesKind.lerTrain, step)]
      lerDev := st.lerDev ++ [(SeriesKind.lerDev, step)] }
  else st

/-- TIMIT CSV lists after the first `n` steps. -/
def timitCsvAfter : ℕ → TimitCsv
  | 0 => timitCsvInit
  | n + 1 => timitCsvStep n (timitCsvAfter n)

/-- Events of one TIMIT loop iteration (lines 161-311).  The dev evaluation
runs only from epoch 10 on (`if epoch >= 10`); whether the test set is also
evaluated depends on the run-time comparison `error_dev_epoch < error_best`,
abstracted by the oracle `isBest`. -/
def timitStepEvents (ipe maxSteps : ℕ) (isBest : ℕ → Bool) (step : ℕ) : List Event :=
  [Event.trainStep step]
    ++ (if (step + 1) % 10 = 0 then [Event.logMetrics step] else [])
    ++ (if saveCond ipe maxSteps step then
          [Event.saveCheckpoint (epochOf ipe step)]
            ++ (if 10 ≤ epochOf ipe step then
                  [Event.evalDev (epochOf ipe step)]
                    ++ (if isBest (epochOf ipe step) then [Event.evalTest (epochOf ipe step)] else [])
                else [])
        else [])

/-- Events of the first `n` iterations of the TIMIT loop. -/
def timitLoopEvents (ipe maxSteps : ℕ) (isBest : ℕ → Bool) : ℕ → List Event
  | 0 => []
  | n + 1 => timitLoopEvents ipe maxSteps isBest n ++ timitStepEvents ipe maxSteps isBest n

/-- The CSV export calls after the TIMIT loop (lines 317-320), with the exact
argument lists the source passes:
`save_loss(csv_steps, csv_loss_train, csv_loss_dev)`,
`save_ler(csv_steps, csv_ler_train, csv_loss_dev)`. -/
def timitSaveCalls (maxSteps : ℕ) : List Event :=
  let st := timitCsvAfter maxSteps
  [Event.saveLossCsv st.steps st.lossTrain st.lossDev,
   Event.saveLerCsv st.steps st.lerTrain st.lossDev]

/-- The whole event trace of a completed `do_train` of the TIMIT script
(lines 151-324). -/
def timitDoTrainTrace (dataNum batchSize epochNum : ℕ) (isBest : ℕ → Bool) : List Event :=
  let ipe := iterPerEpoch dataNum batchSize
  let maxSteps := ipe * epochNum
  timitLoopEvents ipe maxSteps isBest maxSteps ++ timitSaveCalls maxSteps ++ [Event.writeComplete]

/-!
## CSJ feed-dictionary construction (loop body lines 173-194 and 208-211)

The loop unpacks the train mini-batch into
`inputs, labels_main_st, labels_second_st, inputs_seq_len` and then the dev
mini-batch into `inputs, labels_main, labels_second, inputs_seq_len`,
shadowing `inputs` and `inputs_seq_len` but introducing fresh names for the
dev labels.  The dicts are embedded with the same shadowing lets.
-/

/-- One mini-batch of the CSJ multitask dataset, over an abstract tensor
type `V`: `(inputs, labels_main_st, labels_second_st, inputs_seq_len, _)`. -/
structure CsjBatch (V : Type) where
  inputs : V
  labelsMain : V
  labelsSecond : V
  seqLen : V

/-- A feed dictionary of the CSJ script.  `lr` is `some` only when the dict
carries the `network.lr` entry (the train dict does, the dev dict does not). -/
structure CsjFeedDict (V : Type) where
  inputs : V
  labels : V
  labels_second : V
  inputs_seq_len : V
  keep_prob_input : ℚ
  keep_prob_hidden : ℚ
  lr : Option ℚ

/-- Lines 173-194 of the CSJ script: build `feed_dict_train` and
`feed_dict_dev` for the current step's train and dev mini-batches. -/
def csjMakeFeedDicts {V : Type} (dropoutRatioInput dropoutRatioHidden learningRate : ℚ)
    (trainBatch devBatch : CsjBatch V) : CsjFeedDict V × CsjFeedDict V :=
  let inputs := trainBatch.inputs
  let labels_main_st := trainBatch.labelsMain
  let labels_second_st := trainBatch.labelsSecond
  let inputs_seq_len := trainBatch.seqLen
  let feed_dict_train : CsjFeedDict V :=
    { inputs := inputs
      labels := labels_main_st
      labels_second := labels_second_st
      inputs_seq_len := inputs_seq_len
      keep_prob_input := dropoutRatioInput
      keep_prob_hidden := dropoutRatioHidden
      lr := some learningRate }
  let inputs := devBatch.inputs
  let labels_main := devBatch.labelsMain
  let labels_second := devBatch.labelsSecond
  let inputs_seq_len := devBatch.seqLen
  let feed_dict_dev : CsjFeedDict V :=
    { inputs := inputs
      labels := labels_main_st
      labels_second := labels_second_st
      inputs_seq_len := inputs_seq_len
      keep_prob_input := dropoutRatioInput
      keep_prob_hidden := dropoutRatioHidden
      lr := none }
  (feed_dict_train, feed_dict_dev)

/-- Lines 208-211: `feed_dict[network.keep_prob_input] = 1.0` and
`feed_dict[network.keep_prob_hidden] = 1.0` before computing the LERs. -/
def csjEvalModeDict {V : Type} (fd : CsjFeedDict V) : CsjFeedDict V :=
  { fd with keep_prob_input := 1, keep_prob_hidden := 1 }

/-- The pair of feed dictionaries built at step `step` of the CSJ loop, where
`trainStream`/`devStream` give the successive yields of the two mini-batch
generators. -/
def csjStepFeedDicts {V : Type} (dropoutRatioInput dropoutRatioHidden learningRate : ℚ)
    (trainStream devStream : ℕ → CsjBatch V) (step : ℕ) :
    CsjFeedDict V × CsjFeedDict V :=
  csjMakeFeedDicts dropoutRatioInput dropoutRatioHidden learningRate
    (trainStream step) (devStream step)

/-!
## `models/ctc/lstm_ctc.py`
-/

/-- The fields of `LSTM_CTC` relevant to its constructor's `num_proj`
normalisation and to `_build`'s layer dimensions.  `Option ℕ` models a
Python int-or-`None` parameter. -/
structure LSTM_CTC where
  num_unit : ℕ
  num_layer : ℕ
  num_proj : Option ℕ
  bottleneck_dim : Option ℕ
  deriving DecidableEq, Repr

/-- `LSTM_CTC.__init__` (lines 36-59): stores the sizes and normalises
`self.num_proj = None if num_proj == 0 else num_proj` (in Python,
`None == 0` is `False`, so only an explicit `0` becomes `None`). -/
def mkLSTM_CTC (num_unit num_layer : ℕ) (num_proj bottleneck_dim : Option ℕ) : LSTM_CTC :=
  { num_unit := num_unit
    num_layer := num_layer
    num_proj := if num_proj = some 0 then none else num_proj
    bottleneck_dim := bottleneck_dim }

/-- The arguments `_build` passes to `tf.contrib.rnn.LSTMCell` that depend
on the model configuration (lines 86-92). -/
structure LSTMCellCfg where
  num_units : ℕ
  use_peepholes : Bool
  num_proj : Option ℕ
  deriving DecidableEq, Repr

/-- The list of LSTM cells `_build` creates, one per layer
(`for i_layer in range(self.num_layer)`, lines 79-98). -/
def LSTM_CTC.buildCells (m : LSTM_CTC) : List LSTMCellCfg :=
  (List.range m.num_layer).map fun _ =>
    { num_units := m.num_unit, use_peepholes := true, num_proj := m.num_proj }

/-- `output_node` as selected after the recurrent stack (lines 111-114):
`num_unit` when `self.num_proj is None`, else `num_proj`.  This is the
per-timestep dimension of the reshape at line 115. -/
def LSTM_CTC.outputNodeAfterRnn (m : LSTM_CTC) : ℕ :=
  match m.num_proj with
  | none => m.num_unit
  | some p => p

/-- The per-timestep input dimension of the `name_scope('output')` affine
layer (lines 120-138): the bottleneck dimension when a bottleneck layer is
configured (`bottleneck_dim is not None and != 0`), else `output_node`. -/
def LSTM_CTC.outputAffineInDim (m : LSTM_CTC) : ℕ :=
  match m.bottleneck_dim with
  | some d => if d ≠ 0 then d else m.outputNodeAfterRnn
  | none => m.outputNodeAfterRnn

/-!
## CLI entry points (`if __name__ == '__main__'`)
-/

/-- What a script's `__main__` block does before/instead of running `main`. -/
inductive EntryOutcome where
  | exited (code : ℕ)
  | raised (e : PyError)
  | ranMain (configPath : String)
  deriving DecidableEq, Repr

/-- CSJ `__main__` (lines 517-522): `sys.exit(0)` unless `len(sys.argv) == 2`,
else `main(config_path=args[1])`. -/
def csjEntry (args : List String) : EntryOutcome :=
  if h : args.length = 2 then
    EntryOutcome.ranMain (args.get ⟨1, by omega⟩)
  else
    EntryOutcome.exited 0

/-- TIMIT `__main__` (lines 411-416): a bare `raise ValueError` unless
`len(sys.argv) == 2`, else `main(config_path=args[1])`. -/
def timitEntry (args : List String) : EntryOutcome :=
  if h : args.length = 2 then
    EntryOutcome.ranMain (args.get ⟨1, by omega⟩)
  else
    EntryOutcome.raised (PyError.valueError "")

/-!
## `main` of both scripts

`main` is embedded as an `Except PyError` computation that performs the
config-dict subscriptions in source order and, on success, returns the
model name together with the event trace of the run.  It is split into
phases matching contiguous regions of the source.  Values the scripts read
but only forward to TensorFlow are looked up (so a missing key still
raises) and then discarded.
-/

/-- The result of a `main` run that did not raise. -/
structure MainResult where
  modelName : String
  trace : List Event

/-- Lines 428-432 (CSJ) / 330-334 (TIMIT), identical in both scripts:
`corpus = config['corpus']; feature = config['feature']; param =
config['param']`.  (A scalar where a section is expected surfaces as a
`TypeError`; in CPython it would surface at the first subscription of the
value instead, a few lines later.) -/
def readConfigSections (config : Config) : Except PyError (Sect × Sect × Sect) := do
  let corpusV ← pyLookup config "corpus"
  let corpus ← asSect corpusV
  let featureV ← pyLookup config "feature"
  let feature ← asSect featureV
  let paramV ← pyLookup config "param"
  let param ← asSect paramV
  pure (corpus, feature, param)

/-- CSJ lines 434-442: the `if/elif` chains on `corpus['label_type_main']`
and `corpus['label_type_second']`.  With an unrecognised label the local is
left unbound (`none`). -/
def csjOutputSizes (corpus : Sect) : Except PyError (Option ℕ × Option ℕ) := do
  let ltm ← pyLookup corpus "label_type_main"
  let output_size_main : Option ℕ :=
    if leafEqStr ltm "character" then some 147
    else if leafEqStr ltm "kanji" then some 3386
    else none
  let lts ← pyLookup corpus "label_type_second"
  let output_size_second : Option ℕ :=
    if leafEqStr lts "phone" then some 38
    else if leafEqStr lts "character" then some 147
    else none
  pure (output_size_main, output_size_second)

/-- CSJ lines 445-461: `load(model_type=config['model_name'])` followed by
the `CTCModel(...)` constructor call, whose keyword arguments are evaluated
in source order.  Referencing `output_size_main`/`output_size_second`
raises a `NameError` when the label-type chain bound neither. -/
def csjLoadAndCtor (config : Config) (feature param : Sect)
    (osm oss : Option ℕ) : Except PyError Unit := do
  let _ ← pyLookup config "model_name"
  let _ ← pyLookup param "batch_size"
  let isz ← pyLookup feature "input_size"
  let nst ← pyLookup feature "num_stack"
  let _ ← asNum isz
  let _ ← asNum nst
  let _ ← pyLookup param "num_unit"
  let _ ← pyLookup param "num_layer_main"
  let _ ← pyLookup param "num_layer_second"
  let _ ← requireBound "output_size_main" osm
  let _ ← requireBound "output_size_second" oss
  let _ ← pyLookup param "main_task_weight"
  let _ ← pyLookup param "weight_init"
  let _ ← pyLookup param "clip_grad"
  let _ ← pyLookup param "clip_activation"
  let _ ← pyLookup param "dropout_input"
  let _ ← pyLookup param "dropout_hidden"
  let _ ← pyLookup param "num_proj"
  let _ ← pyLookup param "weight_decay"
  pure ()

/-- CSJ lines 463-479: building `network.model_name` by concatenation. -/
def csjModelName (config : Config) (corpus feature param : Sect) :
    Except PyError String := do
  let mnV ← pyLookup config "model_name"
  let base ← topUpper mnV
  let nu ← pyLookup param "num_unit"
  let nlm ← pyLookup param "num_layer_main"
  let nls ← pyLookup param "num_layer_second"
  let optV ← pyLookup param "optimizer"
  let opt ← leafStr optV
  let lr ← pyLookup param "learning_rate"
  let bd ← pyLookup param "bottleneck_dim"
  let np ← pyLookup param "num_proj"
  let ns ← pyLookup feature "num_stack"
  let wd ← pyLookup param "weight_decay"
  let mtw ← pyLookup param "main_task_weight"
  let tds ← pyLookup corpus "train_data_size"
  pure (base ++ "_" ++ pyStr nu ++ "_main" ++ pyStr nlm ++ "_second" ++ pyStr nls
    ++ "_" ++ opt ++ "_lr" ++ pyStr lr
    ++ (if leafNeZero bd then "_bottoleneck" ++ pyStr bd else "")
    ++ (if leafNeZero np then "_proj" ++ pyStr np else "")
    ++ (if leafNeOne ns then "_stack" ++ pyStr ns else "")
    ++ (if leafNeZero wd then "_weightdecay" ++ pyStr wd else "")
    ++ "_taskweight" ++ pyStr mtw
    ++ (if leafEqStr tds "large" then "_large" else ""))

/-- The "Reset model directory" section, identical in both scripts (CSJ
488-493, TIMIT 386-391).  The `mkdir`/`mkdir_join` chain just before it has
already created the directory path (it never raises), then:
`if not isfile(join(model_dir, 'complete.txt')): DeleteRecursively(...);
MakeDirs(...) else: raise ValueError('File exists.')`.  Note the scripts
never test whether the directory itself pre-exists, only the sentinel. -/
def resetModelDir (fs : FS) : Except PyError (List Event) :=
  if fs.completeExists then
    .error (.valueError "File exists.")
  else
    .ok [Event.makeModelDir, Event.deleteModelDir, Event.makeModelDir]

/-- CSJ lines 496-497: `setproctitle('multitaskctc_csj_' +
corpus['label_type_main'] + '_' + corpus['label_type_second'] + '_' +
corpus['train_data_size'])`; each operand must be a `str`. -/
def csjProcTitle (corpus : Sect) : Except PyError Unit := do
  let a ← pyLookup corpus "label_type_main"
  let _ ← leafStr a
  let b ← pyLookup corpus "label_type_second"
  let _ ← leafStr b
  let c ← pyLookup corpus "train_data_size"
  let _ ← leafStr c
  pure ()

/-- CSJ lines 504-513: the keyword arguments of the `do_train(...)` call,
evaluated in source order.  `batch_size` and `num_epoch` must be
non-negative integers for `do_train`'s `range`/division arithmetic (a
non-integer would make CPython fail inside `do_train`, still before any
training step). -/
def csjDoTrainArgs (corpus feature param : Sect) : Except PyError (ℕ × ℕ) := do
  let _ ← pyLookup param "optimizer"
  let _ ← pyLookup param "learning_rate"
  let bsL ← pyLookup param "batch_size"
  let batchSize ← asNat bsL
  let neL ← pyLookup param "num_epoch"
  let epochNum ← asNat neL
  let _ ← pyLookup corpus "label_type_main"
  let _ ← pyLookup corpus "label_type_second"
  let _ ← pyLookup feature "num_stack"
  let _ ← pyLookup feature "num_skip"
  let _ ← pyLookup corpus "train_data_size"
  pure (batchSize, epochNum)

/-- `main(config_path)` of `train_multitask_ctc.py` (lines 425-514).
`trainDataNum` is `train_data.data_num`, read from the corpus on disk. -/
def csjMain (config : Config) (fs : FS) (trainDataNum : ℕ) :
    Except PyError MainResult := do
  let secs ← readConfigSections config
  let corpus := secs.1
  let feature := secs.2.1
  let param := secs.2.2
  let sizes ← csjOutputSizes corpus
  let _ ← csjLoadAndCtor config feature param sizes.1 sizes.2
  let name ← csjModelName config corpus feature param
  let dirEvents ← resetModelDir fs
  let _ ← csjProcTitle corpus
  let args ← csjDoTrainArgs corpus feature param
  pure { modelName := name
         trace := dirEvents
           ++ [Event.setProcTitle, Event.copyConfig "config.yml",
               Event.redirectStdout "train.log"]
           ++ csjDoTrainTrace trainDataNum args.1 args.2 }

/-- TIMIT lines 336-343: the `if/elif` chain on `corpus['label_type']`. -/
def timitOutputSize (corpus : Sect) : Except PyError (Option ℕ) := do
  let lt ← pyLookup corpus "label_type"
  pure (if leafEqStr lt "phone61" then some 63
    else if leafEqStr lt "phone48" then some 50
    else if leafEqStr lt "phone39" then some 41
    else if leafEqStr lt "character" then some 33
    else none)

/-- TIMIT lines 347-368: the `BLSTMAttetion(...)` constructor call, keyword
arguments in source order (`sos_index`/`eos_index` reuse the `output_size`
local, raising `NameError` when the label-type chain left it unbound). -/
def timitCtor (feature param : Sect) (osize : Option ℕ) : Except PyError Unit := do
  let _ ← pyLookup param "batch_size"
  let _ ← pyLookup feature "input_size"
  let _ ← pyLookup param "encoder_num_unit"
  let _ ← pyLookup param "encoder_num_layer"
  let _ ← pyLookup param "attention_dim"
  let _ ← pyLookup param "decoder_num_unit"
  let _ ← pyLookup param "decoder_num_layer"
  let _ ← pyLookup param "embedding_dim"
  let _ ← requireBound "output_size" osize
  let _ ← pyLookup param "max_decode_length"
  let _ ← pyLookup param "attention_weights_tempareture"
  let _ ← pyLookup param "logits_tempareture"
  let _ ← pyLookup param "weight_init"
  let _ ← pyLookup param "clip_grad"
  let _ ← pyLookup param "clip_activation_encoder"
  let _ ← pyLookup param "clip_activation_decoder"
  let _ ← pyLookup param "dropout_input"
  let _ ← pyLookup param "dropout_hidden"
  let _ ← pyLookup param "weight_decay"
  pure ()

/-- TIMIT lines 370-379: building `network.model_name`. -/
def timitModelName (config : Config) (param : Sect) : Except PyError String := do
  let mnV ← pyLookup config "model_name"
  let base ← topUpper mnV
  let enu ← pyLookup param "encoder_num_unit"
  let enl ← pyLookup param "encoder_num_layer"
  let ad ← pyLookup param "attention_dim"
  let dnu ← pyLookup param "decoder_num_unit"
  let dnl ← pyLookup param "decoder_num_layer"
  let optV ← pyLookup param "optimizer"
  let opt ← leafStr optV
  let lr ← pyLookup param "learning_rate"
  let wd ← pyLookup param "weight_decay"
  pure (base ++ "_encoder" ++ pyStr enu ++ "_" ++ pyStr enl ++ "_attdim" ++ pyStr ad
    ++ "_decoder" ++ pyStr dnu ++ "_" ++ pyStr dnl ++ "_" ++ opt ++ "_lr" ++ pyStr lr
    ++ (if leafNeZero wd then "_weightdecay" ++ pyStr wd else ""))

/-- TIMIT lines 402-407: the keyword arguments of the `do_train(...)` call
(`eos_index=output_size - 1` reuses the already-bound local). -/
def timitDoTrainArgs (corpus param : Sect) : Except PyError (ℕ × ℕ) := do
  let _ ← pyLookup param "optimizer"
  let _ ← pyLookup param "learning_rate"
  let bsL ← pyLookup param "batch_size"
  let batchSize ← asNat bsL
  let neL ← pyLookup param "num_epoch"
  let epochNum ← asNat neL
  let _ ← pyLookup corpus "label_type"
  pure (batchSize, epochNum)

/-- `main(config_path)` of `train_attention.py` (lines 327-408). -/
def timitMain (config : Config) (fs : FS) (trainDataNum : ℕ) (isBest : ℕ → Bool) :
    Except PyError MainResult := do
  let secs ← readConfigSections config
  let corpus := secs.1
  let feature := secs.2.1
  let param := secs.2.2
  let osize ← timitOutputSize corpus
  let _ ← timitCtor feature param osize
  let name ← timitModelName config param
  let ltV ← pyLookup corpus "label_type"
  let _ ← leafStr ltV
  let dirEvents ← resetModelDir fs
  let lt2 ← pyLookup corpus "label_type"
  let _ ← leafStr lt2
  let args ← timitDoTrainArgs corpus param
  pure { modelName := name
         trace := dirEvents
           ++ [Event.setProcTitle, Event.copyConfig "config.yml",
               Event.redirectStdout "train.log"]
           ++ timitDoTrainTrace trainDataNum args.1 args.2 isBest }

/-!
## Required config keys and shape of well-formed configs
-/

/-- The value is a section containing every key of the list. -/
def sectKeysPresent (v : TopVal) (keys : List String) : Bool :=
  match v with
  | .sect m => keys.all (fun k => hasKey m k)
  | .leaf _ => false

/-- The `corpus` keys `train_multitask_ctc.main` subscripts. -/
def csjCorpusKeys : List String :=
  ["label_type_main", "label_type_second", "train_data_size"]

/-- The `feature` keys `train_multitask_ctc.main` subscripts. -/
def csjFeatureKeys : List String :=
  ["input_size", "num_stack", "num_skip"]

/-- The `param` keys `train_multitask_ctc.main` subscripts. -/
def csjParamKeys : List String :=
  ["batch_size", "num_unit", "num_layer_main", "num_layer_second",
   "main_task_weight", "weight_init", "clip_grad", "clip_activation",
   "dropout_input", "dropout_hidden", "num_proj", "weight_decay",
   "optimizer", "learning_rate", "bottleneck_dim", "num_epoch"]

/-- Every key `train_multitask_ctc.main` subscripts is present. -/
def csjHasAllRequired (c : Config) : Bool :=
  (match pyLookup c "corpus" with
   | .ok v => sectKeysPresent v csjCorpusKeys
   | .error _ => false)
  && (match pyLookup c "feature" with
   | .ok v => sectKeysPresent v csjFeatureKeys
   | .error _ => false)
  && (match pyLookup c "param" with
   | .ok v => sectKeysPresent v csjParamKeys
   | .error _ => false)
  && hasKey c "model_name"

/-- The `corpus` key `train_attention.main` subscripts. -/
def timitCorpusKeys : List String := ["label_type"]

/-- The `feature` key `train_attention.main` subscripts. -/
def timitFeatureKeys : List String := ["input_size"]

/-- The `param` keys `train_attention.main` subscripts. -/
def timitParamKeys : List String :=
  ["batch_size", "encoder_num_unit", "encoder_num_layer", "attention_dim",
   "decoder_num_unit", "decoder_num_layer", "embedding_dim",
   "max_decode_length", "attention_weights_tempareture", "logits_tempareture",
   "weight_init", "clip_grad", "clip_activation_encoder",
   "clip_activation_decoder", "dropout_input", "dropout_hidden",
   "weight_decay", "optimizer", "learning_rate", "num_epoch"]

/-- Every key `train_attention.main` subscripts is present. -/
def timitHasAllRequired (c : Config) : Bool :=
  (match pyLookup c "corpus" with
   | .ok v => sectKeysPresent v timitCorpusKeys
   | .error _ => false)
  && (match pyLookup c "feature" with
   | .ok v => sectKeysPresent v timitFeatureKeys
   | .error _ => false)
  && (match pyLookup c "param" with
   | .ok v => sectKeysPresent v timitParamKeys
   | .error _ => false)
  && hasKey c "model_name"

/-- When the key is present, its value satisfies the shape check. -/
def optKeyIs (m : Sect) (k : String) (p : Leaf → Bool) : Bool :=
  match pyLookup m k with
  | .ok v => p v
  | .error _ => true

/-- The value is a string. -/
def leafIsStr (l : Leaf) : Bool :=
  match l with
  | .str _ => true
  | .num _ => false

/-- The value is a number. -/
def leafIsNum (l : Leaf) : Bool :=
  match l with
  | .num _ => true
  | .str _ => false

/-- The value is a non-negative integer. -/
def leafIsNatNum (l : Leaf) : Bool :=
  match l with
  | .num q => decide (q.den = 1 ∧ 0 ≤ q.num)
  | .str _ => false

/-- Shape constraints under which `train_multitask_ctc.main` can only fail
on a *missing* key: any key that is present has the type the script's own
use of it assumes, and the label types are among the recognised values. -/
def csjWellTyped (c : Config) : Bool :=
  (match pyLookup c "corpus" with
   | .ok (.sect m) =>
       optKeyIs m "label_type_main"
         (fun l => leafEqStr l "character" || leafEqStr l "kanji")
       && optKeyIs m "label_type_second"
         (fun l => leafEqStr l "phone" || leafEqStr l "character")
       && optKeyIs m "train_data_size" leafIsStr
   | .ok (.leaf _) => false
   | .error _ => true)
  && (match pyLookup c "feature" with
   | .ok (.sect m) =>
       optKeyIs m "input_size" leafIsNum && optKeyIs m "num_stack" leafIsNum
   | .ok (.leaf _) => false
   | .error _ => true)
  && (match pyLookup c "param" with
   | .ok (.sect m) =>
       optKeyIs m "optimizer" leafIsStr && optKeyIs m "batch_size" leafIsNatNum
       && optKeyIs m "num_epoch" leafIsNatNum
   | .ok (.leaf _) => false
   | .error _ => true)
  && (match pyLookup c "model_name" with
   | .ok (.leaf (.str _)) => true
   | .ok _ => false
   | .error _ => true)

/-- Shape constraints under which `train_attention.main` can only fail on a
missing key. -/
def timitWellTyped (c : Config) : Bool :=
  (match pyLookup c "corpus" with
   | .ok (.sect m) =>
       optKeyIs m "label_type"
         (fun l => leafEqStr l "phone61" || leafEqStr l "phone48"
           || leafEqStr l "phone39" || leafEqStr l "character")
   | .ok (.leaf _) => false
   | .error _ => true)
  && (match pyLookup c "feature" with
   | .ok (.sect _) => true
   | .ok (.leaf _) => false
   | .error _ => true)
  && (match pyLookup c "param" with
   | .ok (.sect m) =>
       optKeyIs m "optimizer" leafIsStr && optKeyIs m "batch_size" leafIsNatNum
       && optKeyIs m "num_epoch" leafIsNatNum
   | .ok (.leaf _) => false
   | .error _ => true)
  && (match pyLookup c "model_name" with
   | .ok (.leaf (.str _)) => true
   | .ok _ => false
   | .error _ => true)

/-!
## Concrete sample configs (used to exhibit witnesses and counterexamples)
-/

/-- A complete, well-typed config for `train_multitask_ctc.py` with
`batch_size = 1` and `num_epoch = 1`. -/
def sampleCsjConfig : Config :=
  [("corpus", .sect
      [("label_type_main", .str "character"),
       ("label_type_second", .str "phone"),
       ("train_data_size", .str "default")]),
   ("feature", .sect
      [("input_size", .num 123),
       ("num_stack", .num 1),
       ("num_skip", .num 1)]),
   ("param", .sect
      [("batch_size", .num 1),
       ("num_unit", .num 256),
       ("num_layer_main", .num 2),
       ("num_layer_second", .num 1),
       ("main_task_weight", .num 1),
       ("weight_init", .num 1),
       ("clip_grad", .num 5),
       ("clip_activation", .num 50),
       ("dropout_input", .num 1),
       ("dropout_hidden", .num 1),
       ("num_proj", .num 0),
       ("weight_decay", .num 0),
       ("optimizer", .str "adam"),
       ("learning_rate", .num 1),
       ("bottleneck_dim", .num 0),
       ("num_epoch", .num 1)]),
   ("model_name", .leaf (.str "multitask_lstm"))]

/-- `sampleCsjConfig` with `param['num_epoch']` removed. -/
def sampleCsjConfigNoEpoch : Config :=
  [("corpus", .sect
      [("label_type_main", .str "character"),
       ("label_type_second", .str "phone"),
       ("train_data_size", .str "default")]),
   ("feature", .sect
      [("input_size", .num 123),
       ("num_stack", .num 1),
       ("num_skip", .num 1)]),
   ("param", .sect
      [("batch_size", .num 1),
       ("num_unit", .num 256),
       ("num_layer_main", .num 2),
       ("num_layer_second", .num 1),
       ("main_task_weight", .num 1),
       ("weight_init", .num 1),
       ("clip_grad", .num 5),
       ("clip_activation", .num 50),
       ("dropout_input", .num 1),
       ("dropout_hidden", .num 1),
       ("num_proj", .num 0),
       ("weight_decay", .num 0),
       ("optimizer", .str "adam"),
       ("learning_rate", .num 1),
       ("bottleneck_dim", .num 0)]),
   ("model_name", .leaf (.str "multitask_lstm"))]

/-- A complete, well-typed config for `train_attention.py` with
`batch_size = 1` and `num_epoch = 1`. -/
def sampleTimitConfig : Config :=
  [("corpus", .sect [("label_type", .str "phone61")]),
   ("feature", .sect [("input_size", .num 123)]),
   ("param", .sect
      [("batch_size", .num 1),
       ("encoder_num_unit", .num 256),
       ("encoder_num_layer", .num 2),
       ("attention_dim", .num 128),
       ("decoder_num_unit", .num 256),
       ("decoder_num_layer", .num 1),
       ("embedding_dim", .num 20),
       ("max_decode_length", .num 100),
       ("attention_weights_tempareture", .num 1),
       ("logits_tempareture", .num 1),
       ("weight_init", .num 1),
       ("clip_grad", .num 5),
       ("clip_activation_encoder", .num 50),
       ("clip_activation_decoder", .num 50),
       ("dropout_input", .num 1),
       ("dropout_hidden", .num 1),
       ("weight_decay", .num 0),
       ("optimizer", .str "adam"),
       ("learning_rate", .num 1),
       ("num_epoch", .num 1)]),
   ("model_name", .leaf (.str "blstm_att"))]

/-- `sampleTimitConfig` with `corpus['label_type']` removed. -/
def sampleTimitConfigNoLabel : Config :=
  [("corpus", .sect []),
   ("feature", .sect [("input_size", .num 123)]),
   ("param", .sect
      [("batch_size", .num 1),
       ("encoder_num_unit", .num 256),
       ("encoder_num_layer", .num 2),
       ("attention_dim", .num 128),
       ("decoder_num_unit", .num 256),
       ("decoder_num_layer", .num 1),
       ("embedding_dim", .num 20),
       ("max_decode_length", .num 100),
       ("attention_weights_tempareture", .num 1),
       ("logits_tempareture", .num 1),
       ("weight_init", .num 1),
       ("clip_grad", .num 5),
       ("clip_activation_encoder", .num 50),
       ("clip_activation_decoder", .num 50),
       ("dropout_input", .num 1),
       ("dropout_hidden", .num 1),
       ("weight_decay", .num 0),
       ("optimizer", .str "adam"),
       ("learning_rate", .num 1),
       ("num_epoch", .num 1)]),
   ("model_name", .leaf (.str "blstm_att"))]

/-- The run raised a `ValueError` (used for the directory-reset check). -/
def isValueError {α : Type} (r : Except PyError α) : Bool :=
  match r with
  | .error (.valueError _) => true
  | _ => false

/-- The run raised a `KeyError`. -/
def isKeyError {α : Type} (r : Except PyError α) : Bool :=
  match r with
  | .error (.keyError _) => true
  | _ => false

/-- The run finished without raising. -/
def isOkE {α : Type} (r : Except PyError α) : Bool :=
  match r with
  | .ok _ => true
  | .error _ => false

/-!
## Helper lemmas
-/

theorem exceptBindOk {α β : Type} {x : Except PyError α} {f : α → Except PyError β}
    {b : β} (h : (x >>= f) = .ok b) : ∃ a, x = .ok a ∧ f a = .ok b := by
  cases x with
  | ok a => exact ⟨a, rfl, h⟩
  | error e => exact absurd h (by simp [Bind.bind, Except.bind])

theorem exceptBindErr {α β : Type} {x : Except PyError α} {f : α → Except PyError β}
    {e : PyError} (h : (x >>= f) = .error e) :
    x = .error e ∨ ∃ a, x = .ok a ∧ f a = .error e := by
  cases x with
  | ok a => exact Or.inr ⟨a, rfl, h⟩
  | error e' =>
      left
      have : e' = e := by simpa [Bind.bind, Except.bind] using h
      rw [this]

theorem pyLookup_ok_hasKey {α : Type} {m : List (String × α)} {k : String} {v : α}
    (h : pyLookup m k = .ok v) : hasKey m k = true := by
  unfold pyLookup at h
  unfold hasKey
  cases hf : m.find? (fun p => p.1 == k) with
  | none => rw [hf] at h; exact absurd h (by simp)
  | some p => simp [hf]

theorem pyLookup_error_key {α : Type} {m : List (String × α)} {k : String} {e : PyError}
    (h : pyLookup m k = .error e) : e = .keyError k := by
  unfold pyLookup at h
  cases hf : m.find? (fun p => p.1 == k) with
  | none => rw [hf] at h; exact (Except.error.injEq _ _).mp h.symm
  | some p => rw [hf] at h; exact absurd h (by simp)

theorem pyLookup_ok_of_hasKey {α : Type} {m : List (String × α)} {k : String}
    (h : hasKey m k = true) : ∃ v, pyLookup m k = .ok v := by
  unfold hasKey at h
  unfold pyLookup
  cases hf : m.find? (fun p => p.1 == k) with
  | none => rw [hf] at h; exact absurd h (by simp)
  | some p => exact ⟨p.2, by simp⟩

theorem optKeyIs_spec {m : Sect} {k : String} {p : Leaf → Bool} {v : Leaf}
    (hopt : optKeyIs m k p = true) (h : pyLookup m k = .ok v) : p v = true := by
  unfold optKeyIs at hopt
  rw [h] at hopt
  exact hopt

theorem asNum_ok_of_num {l : Leaf} (h : leafIsNum l = true) : ∃ q, asNum l = .ok q := by
  cases l with
  | num q => exact ⟨q, rfl⟩
  | str s => exact absurd h (by simp [leafIsNum])

theorem asNat_ok_of_natNum {l : Leaf} (h : leafIsNatNum l = true) :
    ∃ n, asNat l = .ok n := by
  cases l with
  | num q =>
      refine ⟨q.num.toNat, ?_⟩
      have : q.den = 1 ∧ 0 ≤ q.num := by simpa [leafIsNatNum] using h
      simp [asNat, this]
  | str s => exact absurd h (by simp [leafIsNatNum])

theorem leafStr_ok_of_str {l : Leaf} (h : leafIsStr l = true) :
    ∃ s, leafStr l = .ok s := by
  cases l with
  | str s => exact ⟨s, rfl⟩
  | num q => exact absurd h (by simp [leafIsStr])

theorem leafEqStr_isStr {l : Leaf} {s : String} (h : leafEqStr l s = true) :
    leafIsStr l = true := by
  cases l with
  | str t => rfl
  | num q => exact absurd h (by simp [leafEqStr])

/-!
## The step arithmetic: `iter_per_epoch` is the ceiling division
-/

theorem rat_div_eq_natDiv_iff {a b : ℕ} (hb : 0 < b) :
    (a : ℚ) / (b : ℚ) = ((a / b : ℕ) : ℚ) ↔ b ∣ a := by
  have hbQ : (b : ℚ) ≠ 0 := Nat.cast_ne_zero.mpr hb.ne'
  constructor
  · intro h
    rw [div_eq_iff hbQ] at h
    have hcast : (a : ℚ) = ((a / b * b : ℕ) : ℚ) := by push_cast; exact h
    have ha : a = a / b * b := Nat.cast_injective hcast
    exact ⟨a / b, by rw [Nat.mul_comm b (a / b)]; exact ha⟩
  · rintro ⟨k, rfl⟩
    rw [Nat.mul_div_cancel_left k hb]
    push_cast
    field_simp

theorem iterPerEpoch_eq_ite {a b : ℕ} (hb : 0 < b) :
    iterPerEpoch a b = if b ∣ a then a / b else a / b + 1 := by
  unfold iterPerEpoch
  by_cases hd : b ∣ a
  · rw [if_pos hd, if_neg (not_not_intro ((rat_div_eq_natDiv_iff hb).mpr hd))]
  · rw [if_neg hd, if_pos (fun h => hd ((rat_div_eq_natDiv_iff hb).mp h))]

theorem nat_lt_div_add_one_mul (a : ℕ) {b : ℕ} (hb : 0 < b) :
    a < (a / b + 1) * b := by
  have h1 := Nat.div_add_mod a b
  have h2 : a % b < b := Nat.mod_lt a hb
  calc a = b * (a / b) + a % b := h1.symm
    _ < b * (a / b) + b := Nat.add_lt_add_left h2 _
    _ = (a / b + 1) * b := by ring

theorem iterPerEpoch_eq_ceil {a b : ℕ} (hb : 0 < b) :
    iterPerEpoch a b = ⌈(a : ℚ) / (b : ℚ)⌉₊ := by
  have hbQ : (0 : ℚ) < (b : ℚ) := by exact_mod_cast hb
  rw [iterPerEpoch_eq_ite hb]
  by_cases hd : b ∣ a
  · obtain ⟨k, rfl⟩ := hd
    rw [if_pos ⟨k, rfl⟩, Nat.mul_div_cancel_left k hb]
    have : ((b * k : ℕ) : ℚ) / (b : ℚ) = (k : ℚ) := by
      push_cast
      field_simp
    rw [this, Nat.ceil_natCast]
  · rw [if_neg hd]
    symm
    rw [Nat.ceil_eq_iff (Nat.succ_ne_zero _)]
    constructor
    · have hlt : a / b * b < a :=
        lt_of_le_of_ne (Nat.div_mul_le_self a b)
          (fun h => hd ⟨a / b, by rw [Nat.mul_comm b (a / b)]; exact h.symm⟩)
      rw [Nat.succ_sub_one]
      rw [lt_div_iff₀ hbQ]
      exact_mod_cast hlt
    · rw [div_le_iff₀ hbQ]
      have := nat_lt_div_add_one_mul a hb
      push_cast
      exact_mod_cast this.le

theorem iterPerEpoch_pos {a b : ℕ} (ha : 0 < a) (hb : 0 < b) :
    0 < iterPerEpoch a b := by
  rw [iterPerEpoch_eq_ite hb]
  by_cases hd : b ∣ a
  · rw [if_pos hd]
    exact Nat.div_pos (Nat.le_of_dvd ha hd) hb
  · rw [if_neg hd]
    exact Nat.succ_pos _

/-- Within the loop range, the extra `(step + 1) == max_steps` disjunct of
the checkpoint guard is subsumed by the modular condition. -/
theorem saveCond_eq_mod {ipe n s : ℕ} (hs : s < ipe * n) :
    saveCond ipe (ipe * n) s = decide ((s + 1) % ipe = 0) := by
  unfold saveCond
  by_cases hend : s + 1 = ipe * n
  · have hmod : (s + 1) % ipe = 0 := by rw [hend]; exact Nat.mul_mod_right ipe n
    simp [hend, hmod]
  · simp [hend]

theorem saveStep_iff {ipe n s : ℕ} (h : 0 < ipe) :
    (s < ipe * n ∧ (s + 1) % ipe = 0) ↔ ∃ e, 1 ≤ e ∧ e ≤ n ∧ s + 1 = e * ipe := by
  constructor
  · rintro ⟨hlt, hmod⟩
    obtain ⟨e, he⟩ := Nat.dvd_of_mod_eq_zero hmod
    rcases Nat.eq_zero_or_pos e with rfl | hepos
    · simp at he
    · refine ⟨e, hepos, ?_, by rw [he]; ring⟩
      have h1 : ipe * e ≤ ipe * n := by rw [← he]; omega
      exact Nat.le_of_mul_le_mul_left h1 h
  · rintro ⟨e, he1, hen, hse⟩
    constructor
    · calc s < s + 1 := Nat.lt_succ_self s
        _ ≤ ipe * n := by
            rw [hse, mul_comm ipe n]
            exact Nat.mul_le_mul_right ipe hen
    · rw [hse]
      exact Nat.mul_mod_left e ipe

theorem epochOf_of_eq {ipe s e : ℕ} (h : 0 < ipe) (hse : s + 1 = e * ipe) :
    epochOf ipe s = e := by
  unfold epochOf
  rw [hse]
  exact Nat.mul_div_cancel e h

/-- The steps of the loop at which the checkpoint guard fires, with a given
epoch value, are exactly `e * iter_per_epoch - 1` for `1 ≤ e ≤ epoch_num`. -/
theorem exists_saveStep_iff {ipe n e : ℕ} (h : 0 < ipe) :
    (∃ s, s < ipe * n ∧ (s + 1) % ipe = 0 ∧ epochOf ipe s = e) ↔ 1 ≤ e ∧ e ≤ n := by
  constructor
  · rintro ⟨s, hlt, hmod, hep⟩
    obtain ⟨e', h1, h2, h3⟩ := (saveStep_iff h).mp ⟨hlt, hmod⟩
    have : e' = e := by rw [← hep]; exact (epochOf_of_eq h h3).symm
    subst this
    exact ⟨h1, h2⟩
  · rintro ⟨h1, h2⟩
    have hpos : 1 ≤ e * ipe := Nat.mul_pos h1 h
    refine ⟨e * ipe - 1, ?_, ?_⟩
    · have := (@saveStep_iff ipe n (e * ipe - 1) h).mpr ⟨e, h1, h2, by omega⟩
      exact this.1
    · have hse : e * ipe - 1 + 1 = e * ipe := by omega
      have := (@saveStep_iff ipe n (e * ipe - 1) h).mpr ⟨e, h1, h2, hse⟩
      exact ⟨this.2, epochOf_of_eq h hse⟩

/-!
## Loop trace lemmas
-/

theorem csjLoop_mem {x : Event} {ipe ms n : ℕ} :
    x ∈ csjLoopEvents ipe ms n ↔ ∃ s, s < n ∧ x ∈ csjStepEvents ipe ms s := by
  induction n with
  | zero => simp [csjLoopEvents]
  | succ n ih =>
      rw [csjLoopEvents, List.mem_append, ih]
      constructor
      · rintro (⟨s, hs, hx⟩ | hx)
        · exact ⟨s, Nat.lt_succ_of_lt hs, hx⟩
        · exact ⟨n, Nat.lt_succ_self n, hx⟩
      · rintro ⟨s, hs, hx⟩
        rcases Nat.lt_succ_iff_lt_or_eq.mp hs with h | rfl
        · exact Or.inl ⟨s, h, hx⟩
        · exact Or.inr hx

theorem timitLoop_mem {x : Event} {ipe ms n : ℕ} {isBest : ℕ → Bool} :
    x ∈ timitLoopEvents ipe ms isBest n ↔
      ∃ s, s < n ∧ x ∈ timitStepEvents ipe ms isBest s := by
  induction n with
  | zero => simp [timitLoopEvents]
  | succ n ih =>
      rw [timitLoopEvents, List.mem_append, ih]
      constructor
      · rintro (⟨s, hs, hx⟩ | hx)
        · exact ⟨s, Nat.lt_succ_of_lt hs, hx⟩
        · exact ⟨n, Nat.lt_succ_self n, hx⟩
      · rintro ⟨s, hs, hx⟩
        rcases Nat.lt_succ_iff_lt_or_eq.mp hs with h | rfl
        · exact Or.inl ⟨s, h, hx⟩
        · exact Or.inr hx

theorem mem_ite_list {α : Type} {c : Prop} [Decidable c] {x : α} {l : List α} :
    (x ∈ if c then l else []) ↔ c ∧ x ∈ l := by
  split_ifs with h <;> simp [h]

theorem csjStep_saveCheckpoint_mem {ipe ms s e : ℕ} :
    Event.saveCheckpoint e ∈ csjStepEvents ipe ms s ↔
      saveCond ipe ms s = true ∧ e = epochOf ipe s := by
  unfold csjStepEvents
  simp only [List.mem_append, mem_ite_list, List.mem_singleton, List.mem_cons,
    List.not_mem_nil, or_false]
  constructor
  · rintro ((h | h) | ⟨hc, h | ⟨h5, h⟩⟩)
    · exact absurd h (by simp)
    · exact absurd h.2 (by simp)
    · exact ⟨hc, by injection h⟩
    · exact absurd h (by simp)
  · rintro ⟨hc, rfl⟩
    exact Or.inr ⟨hc, Or.inl rfl⟩

theorem timitStep_saveCheckpoint_mem {ipe ms s e : ℕ} {isBest : ℕ → Bool} :
    Event.saveCheckpoint e ∈ timitStepEvents ipe ms isBest s ↔
      saveCond ipe ms s = true ∧ e = epochOf ipe s := by
  unfold timitStepEvents
  simp only [List.mem_append, mem_ite_list, List.mem_singleton, List.mem_cons,
    List.not_mem_nil, or_false]
  constructor
  · rintro ((h | h) | ⟨hc, h | ⟨h10, h | ⟨hb, h⟩⟩⟩)
    · exact absurd h (by simp)
    · exact absurd h.2 (by simp)
    · exact ⟨hc, by injection h⟩
    · exact absurd h (by simp)
    · exact absurd h (by simp)
  · rintro ⟨hc, rfl⟩
    exact Or.inr ⟨hc, Or.inl rfl⟩

theorem csjStep_evalDev_mem {ipe ms s e : ℕ} :
    Event.evalDev e ∈ csjStepEvents ipe ms s ↔
      saveCond ipe ms s = true ∧ 5 ≤ epochOf ipe s ∧ e = epochOf ipe s := by
  unfold csjStepEvents
  simp only [List.mem_append, mem_ite_list, List.mem_singleton, List.mem_cons,
    List.not_mem_nil, or_false]
  constructor
  · rintro ((h | h) | ⟨hc, h | ⟨h5, h⟩⟩)
    · exact absurd h (by simp)
    · exact absurd h.2 (by simp)
    · exact absurd h (by simp)
    · exact ⟨hc, h5, by injection h⟩
  · rintro ⟨hc, h5, rfl⟩
    exact Or.inr ⟨hc, Or.inr ⟨h5, rfl⟩⟩

theorem timitStep_evalDev_mem {ipe ms s e : ℕ} {isBest : ℕ → Bool} :
    Event.evalDev e ∈ timitStepEvents ipe ms isBest s ↔
      saveCond ipe ms s = true ∧ 10 ≤ epochOf ipe s ∧ e = epochOf ipe s := by
  unfold timitStepEvents
  simp only [List.mem_append, mem_ite_list, List.mem_singleton, List.mem_cons,
    List.not_mem_nil, or_false]
  constructor
  · rintro ((h | h) | ⟨hc, h | ⟨h10, h | ⟨hb, h⟩⟩⟩)
    · exact absurd h (by simp)
    · exact absurd h.2 (by simp)
    · exact absurd h (by simp)
    · exact ⟨hc, h10, by injection h⟩
    · exact absurd h (by simp)
  · rintro ⟨hc, h10, rfl⟩
    exact Or.inr ⟨hc, Or.inr ⟨h10, Or.inl rfl⟩⟩

theorem csjStep_trainStep_mem {ipe ms s t : ℕ} :
    Event.trainStep t ∈ csjStepEvents ipe ms s ↔ t = s := by
  unfold csjStepEvents
  simp only [List.mem_append, mem_ite_list, List.mem_singleton, List.mem_cons,
    List.not_mem_nil, or_false]
  constructor
  · rintro ((h | h) | ⟨hc, h | ⟨h5, h⟩⟩)
    · injection h
    · exact absurd h.2 (by simp)
    · exact absurd h (by simp)
    · exact absurd h (by simp)
  · rintro rfl
    exact Or.inl (Or.inl rfl)

theorem timitStep_trainStep_mem {ipe ms s t : ℕ} {isBest : ℕ → Bool} :
    Event.trainStep t ∈ timitStepEvents ipe ms isBest s ↔ t = s := by
  unfold timitStepEvents
  simp only [List.mem_append, mem_ite_list, List.mem_singleton, List.mem_cons,
    List.not_mem_nil, or_false]
  constructor
  · rintro ((h | h) | ⟨hc, h | ⟨h10, h | ⟨hb, h⟩⟩⟩)
    · injection h
    · exact absurd h.2 (by simp)
    · exact absurd h (by simp)
    · exact absurd h (by simp)
    · exact absurd h (by simp)
  · rintro rfl
    exact Or.inl (Or.inl rfl)

theorem csjStep_no_writeComplete {ipe ms s : ℕ} :
    Event.writeComplete ∉ csjStepEvents ipe ms s := by
  unfold csjStepEvents
  simp only [List.mem_append, mem_ite_list, List.mem_singleton, List.mem_cons,
    List.not_mem_nil, or_false]
  rintro ((h | h) | ⟨hc, h | ⟨h5, h⟩⟩)
  · exact absurd h (by simp)
  · exact absurd h.2 (by simp)
  · exact absurd h (by simp)
  · exact absurd h (by simp)

theorem timitStep_no_writeComplete {ipe ms s : ℕ} {isBest : ℕ → Bool} :
    Event.writeComplete ∉ timitStepEvents ipe ms isBest s := by
  unfold timitStepEvents
  simp only [List.mem_append, mem_ite_list, List.mem_singleton, List.mem_cons,
    List.not_mem_nil, or_false]
  rintro ((h | h) | ⟨hc, h | ⟨h10, h | ⟨hb, h⟩⟩⟩)
  · exact absurd h (by simp)
  · exact absurd h.2 (by simp)
  · exact absurd h (by simp)
  · exact absurd h (by simp)
  · exact absurd h (by simp)

theorem csjDoTrainTrace_eq (d b n : ℕ) :
    csjDoTrainTrace d b n =
      (csjLoopEvents (iterPerEpoch d b) (iterPerEpoch d b * n) (iterPerEpoch d b * n)
        ++ csjSaveCalls (iterPerEpoch d b * n)) ++ [Event.writeComplete] := by
  rw [csjDoTrainTrace, List.append_assoc]

theorem timitDoTrainTrace_eq (d b n : ℕ) (isBest : ℕ → Bool) :
    timitDoTrainTrace d b n isBest =
      (timitLoopEvents (iterPerEpoch d b) (iterPerEpoch d b * n) isBest (iterPerEpoch d b * n)
        ++ timitSaveCalls (iterPerEpoch d b * n)) ++ [Event.writeComplete] := by
  rw [timitDoTrainTrace, List.append_assoc]

theorem saveStep_val {ipe n s e : ℕ} (h : 0 < ipe) (hs : s < ipe * n)
    (hmod : (s + 1) % ipe = 0) (hep : epochOf ipe s = e) :
    s = e * ipe - 1 := by
  obtain ⟨k, hk⟩ := Nat.dvd_of_mod_eq_zero hmod
  have hk' : s + 1 = k * ipe := by rw [hk]; ring
  have hke : epochOf ipe s = k := epochOf_of_eq h hk'
  rw [hep] at hke
  subst hke
  exact Nat.eq_sub_of_add_eq hk'

theorem csjTrace_saveCheckpoint_mem {d b n e : ℕ} (hd : 0 < d) (hb : 0 < b) :
    Event.saveCheckpoint e ∈ csjDoTrainTrace d b n ↔ 1 ≤ e ∧ e ≤ n := by
  have hipe : 0 < iterPerEpoch d b := iterPerEpoch_pos hd hb
  rw [csjDoTrainTrace_eq, List.mem_append, List.mem_append]
  constructor
  · rintro ((hx | hx) | hx)
    · obtain ⟨s, hs, hmem⟩ := csjLoop_mem.mp hx
      obtain ⟨hc, he⟩ := csjStep_saveCheckpoint_mem.mp hmem
      rw [saveCond_eq_mod hs] at hc
      exact (exists_saveStep_iff hipe).mp ⟨s, hs, by simpa using hc, he.symm⟩
    · simp [csjSaveCalls] at hx
    · simp at hx
  · intro he
    obtain ⟨s, hs, hmod, hep⟩ := (exists_saveStep_iff hipe).mpr he
    refine Or.inl (Or.inl (csjLoop_mem.mpr ⟨s, hs, ?_⟩))
    refine csjStep_saveCheckpoint_mem.mpr ⟨?_, hep.symm⟩
    rw [saveCond_eq_mod hs]
    simpa using hmod

theorem timitTrace_saveCheckpoint_mem {d b n e : ℕ} {isBest : ℕ → Bool}
    (hd : 0 < d) (hb : 0 < b) :
    Event.saveCheckpoint e ∈ timitDoTrainTrace d b n isBest ↔ 1 ≤ e ∧ e ≤ n := by
  have hipe : 0 < iterPerEpoch d b := iterPerEpoch_pos hd hb
  rw [timitDoTrainTrace_eq, List.mem_append, List.mem_append]
  constructor
  · rintro ((hx | hx) | hx)
    · obtain ⟨s, hs, hmem⟩ := timitLoop_mem.mp hx
      obtain ⟨hc, he⟩ := timitStep_saveCheckpoint_mem.mp hmem
      rw [saveCond_eq_mod hs] at hc
      exact (exists_saveStep_iff hipe).mp ⟨s, hs, by simpa using hc, he.symm⟩
    · simp [timitSaveCalls] at hx
    · simp at hx
  · intro he
    obtain ⟨s, hs, hmod, hep⟩ := (exists_saveStep_iff hipe).mpr he
    refine Or.inl (Or.inl (timitLoop_mem.mpr ⟨s, hs, ?_⟩))
    refine timitStep_saveCheckpoint_mem.mpr ⟨?_, hep.symm⟩
    rw [saveCond_eq_mod hs]
    simpa using hmod

theorem csjTrace_evalDev_mem {d b n e : ℕ} (hd : 0 < d) (hb : 0 < b) :
    Event.evalDev e ∈ csjDoTrainTrace d b n ↔ (1 ≤ e ∧ e ≤ n) ∧ 5 ≤ e := by
  have hipe : 0 < iterPerEpoch d b := iterPerEpoch_pos hd hb
  rw [csjDoTrainTrace_eq, List.mem_append, List.mem_append]
  constructor
  · rintro ((hx | hx) | hx)
    · obtain ⟨s, hs, hmem⟩ := csjLoop_mem.mp hx
      obtain ⟨hc, h5, he⟩ := csjStep_evalDev_mem.mp hmem
      rw [saveCond_eq_mod hs] at hc
      subst he
      exact ⟨(exists_saveStep_iff hipe).mp ⟨s, hs, by simpa using hc, rfl⟩, h5⟩
    · simp [csjSaveCalls] at hx
    · simp at hx
  · rintro ⟨he, h5⟩
    obtain ⟨s, hs, hmod, hep⟩ := (exists_saveStep_iff hipe).mpr he
    refine Or.inl (Or.inl (csjLoop_mem.mpr
      ⟨s, hs, csjStep_evalDev_mem.mpr ⟨?_, ?_, hep.symm⟩⟩))
    · rw [saveCond_eq_mod hs]
      simpa using hmod
    · rw [hep]
      exact h5

theorem timitTrace_evalDev_mem {d b n e : ℕ} {isBest : ℕ → Bool}
    (hd : 0 < d) (hb : 0 < b) :
    Event.evalDev e ∈ timitDoTrainTrace d b n isBest ↔ (1 ≤ e ∧ e ≤ n) ∧ 10 ≤ e := by
  have hipe : 0 < iterPerEpoch d b := iterPerEpoch_pos hd hb
  rw [timitDoTrainTrace_eq, List.mem_append, List.mem_append]
  constructor
  · rintro ((hx | hx) | hx)
    · obtain ⟨s, hs, hmem⟩ := timitLoop_mem.mp hx
      obtain ⟨hc, h10, he⟩ := timitStep_evalDev_mem.mp hmem
      rw [saveCond_eq_mod hs] at hc
      subst he
      exact ⟨(exists_saveStep_iff hipe).mp ⟨s, hs, by simpa using hc, rfl⟩, h10⟩
    · simp [timitSaveCalls] at hx
    · simp at hx
  · rintro ⟨he, h10⟩
    obtain ⟨s, hs, hmod, hep⟩ := (exists_saveStep_iff hipe).mpr he
    refine Or.inl (Or.inl (timitLoop_mem.mpr
      ⟨s, hs, timitStep_evalDev_mem.mpr ⟨?_, ?_, hep.symm⟩⟩))
    · rw [saveCond_eq_mod hs]
      simpa using hmod
    · rw [hep]
      exact h10

theorem csjTrace_trainStep_mem {d b n t : ℕ} :
    Event.trainStep t ∈ csjDoTrainTrace d b n ↔ t < iterPerEpoch d b * n := by
  rw [csjDoTrainTrace_eq, List.mem_append, List.mem_append]
  constructor
  · rintro ((hx | hx) | hx)
    · obtain ⟨s, hs, hmem⟩ := csjLoop_mem.mp hx
      rw [csjStep_trainStep_mem.mp hmem]
      exact hs
    · simp [csjSaveCalls] at hx
    · simp at hx
  · intro ht
    exact Or.inl (Or.inl (csjLoop_mem.mpr ⟨t, ht, csjStep_trainStep_mem.mpr rfl⟩))

theorem timitTrace_trainStep_mem {d b n t : ℕ} {isBest : ℕ → Bool} :
    Event.trainStep t ∈ timitDoTrainTrace d b n isBest ↔ t < iterPerEpoch d b * n := by
  rw [timitDoTrainTrace_eq, List.mem_append, List.mem_append]
  constructor
  · rintro ((hx | hx) | hx)
    · obtain ⟨s, hs, hmem⟩ := timitLoop_mem.mp hx
      rw [timitStep_trainStep_mem.mp hmem]
      exact hs
    · simp [timitSaveCalls] at hx
    · simp at hx
  · intro ht
    exact Or.inl (Or.inl (timitLoop_mem.mpr ⟨t, ht, timitStep_trainStep_mem.mpr rfl⟩))

theorem csjBody_no_writeComplete {ipe ms n : ℕ} :
    Event.writeComplete ∉ csjLoopEvents ipe ms n ++ csjSaveCalls ms := by
  rw [List.mem_append]
  rintro (hx | hx)
  · obtain ⟨s, _, hmem⟩ := csjLoop_mem.mp hx
    exact csjStep_no_writeComplete hmem
  · simp [csjSaveCalls] at hx

theorem timitBody_no_writeComplete {ipe ms n : ℕ} {isBest : ℕ → Bool} :
    Event.writeComplete ∉ timitLoopEvents ipe ms isBest n ++ timitSaveCalls ms := by
  rw [List.mem_append]
  rintro (hx | hx)
  · obtain ⟨s, _, hmem⟩ := timitLoop_mem.mp hx
    exact timitStep_no_writeComplete hmem
  · simp [timitSaveCalls] at hx

theorem take_no_last {α : Type} {l : List α} {x : α} (hx : x ∉ l) {k : ℕ}
    (hk : k < (l ++ [x]).length) : x ∉ (l ++ [x]).take k := by
  have hlen : (l ++ [x]).length = l.length + 1 := by simp
  have hk' : k ≤ l.length := by omega
  rw [List.take_append_of_le_length hk']
  intro h
  exact hx (List.take_subset k l h)

/-- Computation rule used to evaluate `iterPerEpoch` on concrete numbers
(the rational comparison in its definition does not reduce inside the
kernel). -/
theorem iterPerEpoch_val {a b i : ℕ} (hb : 0 < b)
    (h : (if b ∣ a then a / b else a / b + 1) = i) : iterPerEpoch a b = i := by
  rw [iterPerEpoch_eq_ite hb]
  exact h

theorem csjDoTrainTrace_of_ipe {d b n i : ℕ} (h : iterPerEpoch d b = i) :
    csjDoTrainTrace d b n =
      csjLoopEvents i (i * n) (i * n) ++ csjSaveCalls (i * n)
        ++ [Event.writeComplete] := by
  simp only [csjDoTrainTrace]
  rw [h]

theorem timitDoTrainTrace_of_ipe {d b n i : ℕ} {isBest : ℕ → Bool}
    (h : iterPerEpoch d b = i) :
    timitDoTrainTrace d b n isBest =
      timitLoopEvents i (i * n) isBest (i * n) ++ timitSaveCalls (i * n)
        ++ [Event.writeComplete] := by
  simp only [timitDoTrainTrace]
  rw [h]

/-!
## Claim theorems: the training loop (C2, C3, C5)
-/

/-- C2 counterexample: in the run with `data_num = batch_size = 1` and
`epoch_num = 1`, epoch 1 (the whole range `1..epoch_num`) ends at step 0,
but neither script's trace contains a dev evaluation, because the scripts
evaluate only from epoch 5 (CSJ) resp. 10 (TIMIT) on.  So it is false that
the model is evaluated on the dev set at the end of *every* epoch. -/
theorem c2_counterexample :
    ((1 : ℕ) ≤ 1 ∧ (1 : ℕ) ≤ 1) ∧
    Event.evalDev 1 ∉ csjDoTrainTrace 1 1 1 ∧
    Event.evalDev 1 ∉ timitDoTrainTrace 1 1 1 (fun _ => false) := by
  have h : iterPerEpoch 1 1 = 1 := iterPerEpoch_val (by decide) (by decide)
  rw [csjDoTrainTrace_of_ipe h, timitDoTrainTrace_of_ipe h]
  decide

/-- C2 corrected: an end-of-epoch dev evaluation (with its CER/PER) happens
at epoch `e` iff `e` lies in `1..epoch_num` *and* `e ≥ 5` in the CSJ script
(`if epoch >= 5`), resp. `e ≥ 10` in the TIMIT script (`if epoch >= 10`);
epochs below the threshold are not evaluated. -/
theorem c2_amended_evalDev_iff_threshold (d b n e : ℕ) (isBest : ℕ → Bool)
    (hd : 0 < d) (hb : 0 < b) :
    (Event.evalDev e ∈ csjDoTrainTrace d b n ↔ (1 ≤ e ∧ e ≤ n) ∧ 5 ≤ e) ∧
    (Event.evalDev e ∈ timitDoTrainTrace d b n isBest ↔ (1 ≤ e ∧ e ≤ n) ∧ 10 ≤ e) :=
  ⟨csjTrace_evalDev_mem hd hb, timitTrace_evalDev_mem hd hb⟩

/-- Witness for the corrected C2 at `data_num = 10, batch_size = 1,
epoch_num = 10, e = 10`. -/
theorem c2_amended_witness :
    0 < (10 : ℕ) ∧ 0 < (1 : ℕ) ∧
    (Event.evalDev 10 ∈ timitDoTrainTrace 10 1 10 (fun _ => false) ↔
      ((1 : ℕ) ≤ 10 ∧ (10 : ℕ) ≤ 10) ∧ (10 : ℕ) ≤ 10) :=
  ⟨by decide, by decide,
    (c2_amended_evalDev_iff_threshold 10 1 10 10 (fun _ => false)
      (by decide) (by decide)).2⟩

/-- C3: in both scripts the trace of a completed `do_train` is the full
`max_steps`-step loop, then the CSV export calls, then `complete.txt` as
the very last action; the loop contains exactly the steps
`0..max_steps - 1`; and any proper prefix of the trace — i.e. any run that
terminates early — contains no `writeComplete`, so the sentinel marks
successful completion. -/
theorem c3_complete_sentinel (d b n k : ℕ) (isBest : ℕ → Bool) :
    csjDoTrainTrace d b n =
      (csjLoopEvents (iterPerEpoch d b) (iterPerEpoch d b * n) (iterPerEpoch d b * n)
        ++ csjSaveCalls (iterPerEpoch d b * n)) ++ [Event.writeComplete] ∧
    timitDoTrainTrace d b n isBest =
      (timitLoopEvents (iterPerEpoch d b) (iterPerEpoch d b * n) isBest
          (iterPerEpoch d b * n)
        ++ timitSaveCalls (iterPerEpoch d b * n)) ++ [Event.writeComplete] ∧
    (∀ t, Event.trainStep t ∈ csjDoTrainTrace d b n ↔ t < iterPerEpoch d b * n) ∧
    (∀ t, Event.trainStep t ∈ timitDoTrainTrace d b n isBest ↔
      t < iterPerEpoch d b * n) ∧
    (csjDoTrainTrace d b n).getLast? = some Event.writeComplete ∧
    (timitDoTrainTrace d b n isBest).getLast? = some Event.writeComplete ∧
    (k < (csjDoTrainTrace d b n).length →
      Event.writeComplete ∉ (csjDoTrainTrace d b n).take k) ∧
    (k < (timitDoTrainTrace d b n isBest).length →
      Event.writeComplete ∉ (timitDoTrainTrace d b n isBest).take k) := by
  refine ⟨csjDoTrainTrace_eq d b n, timitDoTrainTrace_eq d b n isBest,
    fun t => csjTrace_trainStep_mem, fun t => timitTrace_trainStep_mem,
    ?_, ?_, ?_, ?_⟩
  · rw [csjDoTrainTrace_eq]
    exact List.getLast?_concat _
  · rw [timitDoTrainTrace_eq]
    exact List.getLast?_concat _
  · intro hk
    rw [csjDoTrainTrace_eq] at hk ⊢
    exact take_no_last csjBody_no_writeComplete hk
  · intro hk
    rw [timitDoTrainTrace_eq] at hk ⊢
    exact take_no_last timitBody_no_writeComplete hk

/-- Witness for C3 at `data_num = batch_size = epoch_num = 1`, prefix
length 0. -/
theorem c3_witness :
    0 < (csjDoTrainTrace 1 1 1).length ∧
    Event.writeComplete ∉ (csjDoTrainTrace 1 1 1).take 0 ∧
    0 < (timitDoTrainTrace 1 1 1 (fun _ => false)).length ∧
    Event.writeComplete ∉ (timitDoTrainTrace 1 1 1 (fun _ => false)).take 0 := by
  have h : iterPerEpoch 1 1 = 1 := iterPerEpoch_val (by decide) (by decide)
  have hlen : 0 < (csjDoTrainTrace 1 1 1).length := by
    rw [csjDoTrainTrace_of_ipe h]
    decide
  have hlen2 : 0 < (timitDoTrainTrace 1 1 1 (fun _ => false)).length := by
    rw [timitDoTrainTrace_of_ipe h]
    decide
  exact ⟨hlen,
    (c3_complete_sentinel 1 1 1 0 (fun _ => false)).2.2.2.2.2.2.1 hlen,
    hlen2,
    (c3_complete_sentinel 1 1 1 0 (fun _ => false)).2.2.2.2.2.2.2 hlen2⟩

/-- C5: in both scripts `iter_per_epoch` is the ceiling of
`data_num / batch_size`; within the loop range the checkpoint guard is
equivalent to `(step + 1) % iter_per_epoch == 0` (so the extra
`(step + 1) == max_steps` disjunct never triggers a save at a non-epoch
boundary); for every epoch `1..epoch_num` there is exactly one step at
which the guard fires with that epoch as `global_step`; and the checkpoints
appearing in either script's trace are exactly those of epochs
`1..epoch_num`. -/
theorem c5_checkpoint_schedule (d b n : ℕ) (isBest : ℕ → Bool)
    (hd : 0 < d) (hb : 0 < b) :
    iterPerEpoch d b = ⌈(d : ℚ) / (b : ℚ)⌉₊ ∧
    (∀ s, s < iterPerEpoch d b * n →
      (saveCond (iterPerEpoch d b) (iterPerEpoch d b * n) s = true ↔
        (s + 1) % iterPerEpoch d b = 0)) ∧
    (∀ e, 1 ≤ e → e ≤ n →
      ∃! s, s < iterPerEpoch d b * n ∧
        saveCond (iterPerEpoch d b) (iterPerEpoch d b * n) s = true ∧
        epochOf (iterPerEpoch d b) s = e) ∧
    (∀ e, Event.saveCheckpoint e ∈ csjDoTrainTrace d b n ↔ 1 ≤ e ∧ e ≤ n) ∧
    (∀ e, Event.saveCheckpoint e ∈ timitDoTrainTrace d b n isBest ↔
      1 ≤ e ∧ e ≤ n) := by
  have hipe : 0 < iterPerEpoch d b := iterPerEpoch_pos hd hb
  refine ⟨iterPerEpoch_eq_ceil hb, ?_, ?_, fun e => csjTrace_saveCheckpoint_mem hd hb,
    fun e => timitTrace_saveCheckpoint_mem hd hb⟩
  · intro s hs
    rw [saveCond_eq_mod hs]
    simp
  · intro e h1 h2
    obtain ⟨s, hs, hmod, hep⟩ := (exists_saveStep_iff hipe).mpr ⟨h1, h2⟩
    refine ⟨s, ⟨hs, ?_, hep⟩, ?_⟩
    · rw [saveCond_eq_mod hs]
      simpa using hmod
    · rintro s' ⟨hs', hc', hep'⟩
      rw [saveCond_eq_mod hs'] at hc'
      have e1 : s' = e * iterPerEpoch d b - 1 :=
        saveStep_val hipe hs' (by simpa using hc') hep'
      have e2 : s = e * iterPerEpoch d b - 1 := saveStep_val hipe hs hmod hep
      rw [e1, e2]

/-- Witness for C5 at `data_num = 3, batch_size = 2, epoch_num = 2`
(`iter_per_epoch = ⌈3/2⌉ = 2`, checkpoints exactly at epochs 1, 2). -/
theorem c5_witness :
    0 < (3 : ℕ) ∧ 0 < (2 : ℕ) ∧
    (Event.saveCheckpoint 2 ∈ csjDoTrainTrace 3 2 2 ↔ (1 : ℕ) ≤ 2 ∧ (2 : ℕ) ≤ 2) :=
  ⟨by decide, by decide,
    (c5_checkpoint_schedule 3 2 2 (fun _ => false) (by decide) (by decide)).2.2.2.1 2⟩

/-!
## Claim theorems: entry points, feed dicts, model, directory reset
(C4, C8, C10, C1)
-/

/-- C4: each script's `__main__` block accepts exactly one positional
argument.  With `len(sys.argv) != 2` the CSJ script terminates via
`sys.exit(0)` and the TIMIT script via a bare `raise ValueError`, in both
cases without calling `main`; with exactly one argument
(`len(sys.argv) == 2`) both call `main(config_path=args[1])`. -/
theorem c4_entry_args (args : List String) :
    (args.length ≠ 2 →
      csjEntry args = EntryOutcome.exited 0 ∧
      timitEntry args = EntryOutcome.raised (PyError.valueError "")) ∧
    (args.length = 2 →
      ∃ h1 : 1 < args.length,
        csjEntry args = EntryOutcome.ranMain (args.get ⟨1, h1⟩) ∧
        timitEntry args = EntryOutcome.ranMain (args.get ⟨1, h1⟩)) := by
  constructor
  · intro h
    unfold csjEntry timitEntry
    rw [dif_neg h, dif_neg h]
    exact ⟨rfl, rfl⟩
  · intro h
    refine ⟨by omega, ?_, ?_⟩
    · unfold csjEntry
      rw [dif_pos h]
    · unfold timitEntry
      rw [dif_pos h]

/-- Witness for C4: a zero-argument and a one-argument invocation. -/
theorem c4_witness :
    csjEntry ["train.py"] = EntryOutcome.exited 0 ∧
    timitEntry ["train.py"] = EntryOutcome.raised (PyError.valueError "") ∧
    csjEntry ["train.py", "config.yml"] = EntryOutcome.ranMain "config.yml" ∧
    timitEntry ["train.py", "config.yml"] = EntryOutcome.ranMain "config.yml" := by
  refine ⟨((c4_entry_args ["train.py"]).1 (by decide)).1,
    ((c4_entry_args ["train.py"]).1 (by decide)).2, ?_, ?_⟩
  · obtain ⟨h1, e1, e2⟩ := (c4_entry_args ["train.py", "config.yml"]).2 rfl
    exact e1
  · obtain ⟨h1, e1, e2⟩ := (c4_entry_args ["train.py", "config.yml"]).2 rfl
    exact e2

/-- C8: at every step of the CSJ loop, the feed dictionary used for the dev
loss — and its evaluation-mode variant used for the dev LER — bind the
label placeholders `network.labels` and `network.labels_second` to the
*train* mini-batch's sparse tensors `labels_main_st`/`labels_second_st`;
only the `inputs` and `inputs_seq_len` entries come from the dev batch. -/
theorem c8_dev_feed_dict_labels {V : Type}
    (dropIn dropHid lr : ℚ) (trainStream devStream : ℕ → CsjBatch V) (step : ℕ) :
    (csjStepFeedDicts dropIn dropHid lr trainStream devStream step).2.labels
        = (trainStream step).labelsMain ∧
    (csjStepFeedDicts dropIn dropHid lr trainStream devStream step).2.labels_second
        = (trainStream step).labelsSecond ∧
    (csjStepFeedDicts dropIn dropHid lr trainStream devStream step).2.inputs
        = (devStream step).inputs ∧
    (csjStepFeedDicts dropIn dropHid lr trainStream devStream step).2.inputs_seq_len
        = (devStream step).seqLen ∧
    (csjEvalModeDict
        (csjStepFeedDicts dropIn dropHid lr trainStream devStream step).2).labels
        = (trainStream step).labelsMain ∧
    (csjEvalModeDict
        (csjStepFeedDicts dropIn dropHid lr trainStream devStream step).2).labels_second
        = (trainStream step).labelsSecond ∧
    (csjEvalModeDict
        (csjStepFeedDicts dropIn dropHid lr trainStream devStream step).2).inputs
        = (devStream step).inputs ∧
    (csjEvalModeDict
        (csjStepFeedDicts dropIn dropHid lr trainStream devStream step).2).inputs_seq_len
        = (devStream step).seqLen :=
  ⟨rfl, rfl, rfl, rfl, rfl, rfl, rfl, rfl⟩

/-- C10 counterexample: the claim's final clause fails when a bottleneck
layer is configured: `mkLSTM_CTC 8 1 (some 0) (some 5)` normalises
`num_proj` to `None`, yet the dimension fed to the `name_scope('output')`
affine layer is the bottleneck dimension 5, not `num_unit = 8`. -/
theorem c10_counterexample :
    (mkLSTM_CTC 8 1 (some 0) (some 5)).num_proj = none ∧
    (mkLSTM_CTC 8 1 (some 0) (some 5)).outputAffineInDim = 5 ∧
    (mkLSTM_CTC 8 1 (some 0) (some 5)).num_unit = 8 ∧
    (mkLSTM_CTC 8 1 (some 0) (some 5)).outputAffineInDim ≠
      (mkLSTM_CTC 8 1 (some 0) (some 5)).num_unit := by
  decide

/-- C10 corrected: `__init__` normalises `num_proj = 0` to `None`, so a
model constructed with `num_proj = 0` equals one constructed with
`num_proj = None`; in both, `self.num_proj` is `None`, every LSTM cell of
`_build` is created without a recurrent projection, and the per-timestep
dimension selected after the recurrent stack (`output_node`) is
`num_unit`.  The dimension fed to the `name_scope('output')` affine layer
is `num_unit` provided no bottleneck layer is configured
(`bottleneck_dim` is `None` or `0`); with a bottleneck layer it is
`bottleneck_dim` instead. -/
theorem c10_amended_num_proj_normalisation (num_unit num_layer : ℕ)
    (bottleneck_dim : Option ℕ) :
    mkLSTM_CTC num_unit num_layer (some 0) bottleneck_dim =
      mkLSTM_CTC num_unit num_layer none bottleneck_dim ∧
    (mkLSTM_CTC num_unit num_layer (some 0) bottleneck_dim).num_proj = none ∧
    (∀ cell ∈ (mkLSTM_CTC num_unit num_layer (some 0) bottleneck_dim).buildCells,
      cell.num_proj = none ∧ cell.num_units = num_unit) ∧
    (mkLSTM_CTC num_unit num_layer (some 0) bottleneck_dim).outputNodeAfterRnn
      = num_unit ∧
    (bottleneck_dim = none ∨ bottleneck_dim = some 0 →
      (mkLSTM_CTC num_unit num_layer (some 0) bottleneck_dim).outputAffineInDim
        = num_unit) := by
  refine ⟨rfl, rfl, ?_, rfl, ?_⟩
  · intro cell hc
    simp only [LSTM_CTC.buildCells, List.mem_map] at hc
    obtain ⟨i, _, rfl⟩ := hc
    exact ⟨rfl, rfl⟩
  · rintro (rfl | rfl) <;> rfl

/-- Witness for the corrected C10: without a bottleneck the output affine
layer input dimension is `num_unit`. -/
theorem c10_witness :
    (mkLSTM_CTC 8 1 (some 0) none).outputAffineInDim = 8 :=
  (c10_amended_num_proj_normalisation 8 1 none).2.2.2.2 (Or.inl rfl)

/-- C1 counterexample: a run of `main` (either script, here on a complete,
well-typed config) in a state where the model output directory already
exists but holds no `complete.txt` does **not** raise: the directory is
deleted and recreated and the run proceeds into training (the trace
contains `trainStep 0`).  So a pre-existing output directory alone does not
terminate the run. -/
theorem c1_counterexample :
    (FS.mk true false).dirExists = true ∧
    (∃ r, csjMain sampleCsjConfig ⟨true, false⟩ 1 = .ok r ∧
      Event.deleteModelDir ∈ r.trace ∧ Event.trainStep 0 ∈ r.trace) ∧
    (∃ r, timitMain sampleTimitConfig ⟨true, false⟩ 1 (fun _ => false) = .ok r ∧
      Event.deleteModelDir ∈ r.trace ∧ Event.trainStep 0 ∈ r.trace) := by
  have h : iterPerEpoch 1 1 = 1 := iterPerEpoch_val (by decide) (by decide)
  refine ⟨rfl, ⟨_, rfl, ?_, ?_⟩, ⟨_, rfl, ?_, ?_⟩⟩
  · exact List.mem_append.mpr (Or.inl (by decide))
  · refine List.mem_append.mpr (Or.inr ?_)
    show Event.trainStep 0 ∈ csjDoTrainTrace 1 1 1
    rw [csjDoTrainTrace_of_ipe h]
    decide
  · exact List.mem_append.mpr (Or.inl (by decide))
  · refine List.mem_append.mpr (Or.inr ?_)
    show Event.trainStep 0 ∈ timitDoTrainTrace 1 1 1 (fun _ => false)
    rw [timitDoTrainTrace_of_ipe h]
    decide

/-- C1 corrected: the "Reset model directory" section of both `main`s never
consults whether the output directory itself exists; it raises
(`ValueError('File exists.')`) exactly when the directory contains a
`complete.txt` sentinel.  A run on a parsable config therefore raises iff
the sentinel exists; otherwise the directory is deleted, recreated, and the
run proceeds to training. -/
theorem c1_amended_raise_iff_sentinel (fs : FS) (d : ℕ) (isBest : ℕ → Bool) :
    (∀ g : FS, isValueError (resetModelDir g) = g.completeExists ∧
      isOkE (resetModelDir g) = !g.completeExists) ∧
    isValueError (csjMain sampleCsjConfig fs d) = fs.completeExists ∧
    isValueError (timitMain sampleTimitConfig fs d isBest) = fs.completeExists ∧
    isOkE (csjMain sampleCsjConfig fs d) = !fs.completeExists ∧
    isOkE (timitMain sampleTimitConfig fs d isBest) = !fs.completeExists := by
  obtain ⟨de, ce⟩ := fs
  refine ⟨?_, ?_⟩
  · rintro ⟨de', ce'⟩
    cases ce' <;> exact ⟨rfl, rfl⟩
  · cases ce <;> exact ⟨rfl, rfl, rfl, rfl⟩

/-!
## CSV accumulator characterisation and the C9 export mismatch
-/

theorem csjCsvAfter_eq (n : ℕ) :
    csjCsvAfter n = ⟨loggedSteps 200 n,
      (loggedSteps 200 n).map (fun s => (SeriesKind.lossTrain, s)),
      (loggedSteps 200 n).map (fun s => (SeriesKind.lossDev, s)),
      (loggedSteps 200 n).map (fun s => (SeriesKind.lerMainTrain, s)),
      (loggedSteps 200 n).map (fun s => (SeriesKind.lerMainDev, s)),
      (loggedSteps 200 n).map (fun s => (SeriesKind.lerSecondTrain, s)),
      (loggedSteps 200 n).map (fun s => (SeriesKind.lerSecondDev, s))⟩ := by
  induction n with
  | zero => rfl
  | succ n ih =>
      rw [csjCsvAfter, ih]
      unfold csjCsvStep loggedSteps
      rw [List.range_succ, List.filter_append]
      by_cases h : (n + 1) % 200 = 0 <;> simp [h]

theorem timitCsvAfter_eq (n : ℕ) :
    timitCsvAfter n = ⟨loggedSteps 10 n,
      (loggedSteps 10 n).map (fun s => (SeriesKind.lossTrain, s)),
      (loggedSteps 10 n).map (fun s => (SeriesKind.lossDev, s)),
      (loggedSteps 10 n).map (fun s => (SeriesKind.lerTrain, s)),
      (loggedSteps 10 n).map (fun s => (SeriesKind.lerDev, s))⟩ := by
  induction n with
  | zero => rfl
  | succ n ih =>
      rw [timitCsvAfter, ih]
      unfold timitCsvStep loggedSteps
      rw [List.range_succ, List.filter_append]
      by_cases h : (n + 1) % 10 = 0 <;> simp [h]

theorem mem_loggedSteps_self {i n : ℕ} (hi : 0 < i) (h : i ≤ n) :
    (i - 1) ∈ loggedSteps i n := by
  unfold loggedSteps
  rw [List.mem_filter]
  refine ⟨List.mem_range.mpr (by omega), ?_⟩
  have he : i - 1 + 1 = i := by omega
  rw [he]
  simp [Nat.mod_self]

theorem map_tag_ne {l : List ℕ} (hl : l ≠ []) {k1 k2 : SeriesKind} (hk : k1 ≠ k2) :
    l.map (fun s => ((k1, s) : MetricVal)) ≠ l.map (fun s => ((k2, s) : MetricVal)) := by
  cases l with
  | nil => exact absurd rfl hl
  | cons a t =>
      intro h
      simp only [List.map_cons, List.cons.injEq, Prod.mk.injEq] at h
      exact hk h.1.1

theorem csjCsvAfter_lossTrain (n : ℕ) : (csjCsvAfter n).lossTrain =
    (loggedSteps 200 n).map (fun s => ((SeriesKind.lossTrain, s) : MetricVal)) := by
  rw [csjCsvAfter_eq]

theorem csjCsvAfter_lossDev (n : ℕ) : (csjCsvAfter n).lossDev =
    (loggedSteps 200 n).map (fun s => ((SeriesKind.lossDev, s) : MetricVal)) := by
  rw [csjCsvAfter_eq]

theorem csjCsvAfter_lerMainTrain (n : ℕ) : (csjCsvAfter n).lerMainTrain =
    (loggedSteps 200 n).map (fun s => ((SeriesKind.lerMainTrain, s) : MetricVal)) := by
  rw [csjCsvAfter_eq]

theorem csjCsvAfter_lerMainDev (n : ℕ) : (csjCsvAfter n).lerMainDev =
    (loggedSteps 200 n).map (fun s => ((SeriesKind.lerMainDev, s) : MetricVal)) := by
  rw [csjCsvAfter_eq]

theorem csjCsvAfter_lerSecondTrain (n : ℕ) : (csjCsvAfter n).lerSecondTrain =
    (loggedSteps 200 n).map (fun s => ((SeriesKind.lerSecondTrain, s) : MetricVal)) := by
  rw [csjCsvAfter_eq]

theorem csjCsvAfter_lerSecondDev (n : ℕ) : (csjCsvAfter n).lerSecondDev =
    (loggedSteps 200 n).map (fun s => ((SeriesKind.lerSecondDev, s) : MetricVal)) := by
  rw [csjCsvAfter_eq]

theorem timitCsvAfter_lossTrain (n : ℕ) : (timitCsvAfter n).lossTrain =
    (loggedSteps 10 n).map (fun s => ((SeriesKind.lossTrain, s) : MetricVal)) := by
  rw [timitCsvAfter_eq]

theorem timitCsvAfter_lossDev (n : ℕ) : (timitCsvAfter n).lossDev =
    (loggedSteps 10 n).map (fun s => ((SeriesKind.lossDev, s) : MetricVal)) := by
  rw [timitCsvAfter_eq]

theorem timitCsvAfter_lerTrain (n : ℕ) : (timitCsvAfter n).lerTrain =
    (loggedSteps 10 n).map (fun s => ((SeriesKind.lerTrain, s) : MetricVal)) := by
  rw [timitCsvAfter_eq]

theorem timitCsvAfter_lerDev (n : ℕ) : (timitCsvAfter n).lerDev =
    (loggedSteps 10 n).map (fun s => ((SeriesKind.lerDev, s) : MetricVal)) := by
  rw [timitCsvAfter_eq]

/-- C9: the CSV exports after training pair mismatched series.  The calls
are exactly `save_loss(csv_steps, csv_loss_train, csv_loss_dev)` then
`save_ler(csv_steps, csv_ler_main_train, csv_ler_second_dev)` then
`save_ler(csv_steps, csv_ler_second_train, csv_ler_second_dev)` in the CSJ
script, and `save_loss(csv_steps, csv_loss_train, csv_loss_dev)` then
`save_ler(csv_steps, csv_ler_train, csv_loss_dev)` in the TIMIT script —
so TIMIT exports the dev *loss* list in place of the dev LER list — and,
whenever at least one logging step occurred, the collected
`csv_ler_main_dev` (CSJ) and `csv_ler_dev` (TIMIT) lists are not among the
exported argument lists. -/
theorem c9_csv_export_mismatch (ms ms' : ℕ) (h200 : 200 ≤ ms) (h10 : 10 ≤ ms') :
    csjSaveCalls ms = [
      Event.saveLossCsv (csjCsvAfter ms).steps (csjCsvAfter ms).lossTrain
        (csjCsvAfter ms).lossDev,
      Event.saveLerCsv (csjCsvAfter ms).steps (csjCsvAfter ms).lerMainTrain
        (csjCsvAfter ms).lerSecondDev,
      Event.saveLerCsv (csjCsvAfter ms).steps (csjCsvAfter ms).lerSecondTrain
        (csjCsvAfter ms).lerSecondDev] ∧
    timitSaveCalls ms' = [
      Event.saveLossCsv (timitCsvAfter ms').steps (timitCsvAfter ms').lossTrain
        (timitCsvAfter ms').lossDev,
      Event.saveLerCsv (timitCsvAfter ms').steps (timitCsvAfter ms').lerTrain
        (timitCsvAfter ms').lossDev] ∧
    (csjCsvAfter ms).lerMainDev ∉ [(csjCsvAfter ms).lossTrain,
      (csjCsvAfter ms).lossDev, (csjCsvAfter ms).lerMainTrain,
      (csjCsvAfter ms).lerSecondTrain, (csjCsvAfter ms).lerSecondDev] ∧
    (timitCsvAfter ms').lerDev ∉ [(timitCsvAfter ms').lossTrain,
      (timitCsvAfter ms').lossDev, (timitCsvAfter ms').lerTrain] := by
  have hne : loggedSteps 200 ms ≠ [] :=
    List.ne_nil_of_mem (mem_loggedSteps_self (by omega) h200)
  have hne' : loggedSteps 10 ms' ≠ [] :=
    List.ne_nil_of_mem (mem_loggedSteps_self (by omega) h10)
  refine ⟨rfl, rfl, ?_, ?_⟩
  · intro hmem
    simp only [List.mem_cons, List.not_mem_nil, or_false] at hmem
    rcases hmem with h | h | h | h | h
    · rw [csjCsvAfter_lerMainDev, csjCsvAfter_lossTrain] at h
      exact map_tag_ne hne (by decide) h
    · rw [csjCsvAfter_lerMainDev, csjCsvAfter_lossDev] at h
      exact map_tag_ne hne (by decide) h
    · rw [csjCsvAfter_lerMainDev, csjCsvAfter_lerMainTrain] at h
      exact map_tag_ne hne (by decide) h
    · rw [csjCsvAfter_lerMainDev, csjCsvAfter_lerSecondTrain] at h
      exact map_tag_ne hne (by decide) h
    · rw [csjCsvAfter_lerMainDev, csjCsvAfter_lerSecondDev] at h
      exact map_tag_ne hne (by decide) h
  · intro hmem
    simp only [List.mem_cons, List.not_mem_nil, or_false] at hmem
    rcases hmem with h | h | h
    · rw [timitCsvAfter_lerDev, timitCsvAfter_lossTrain] at h
      exact map_tag_ne hne' (by decide) h
    · rw [timitCsvAfter_lerDev, timitCsvAfter_lossDev] at h
      exact map_tag_ne hne' (by decide) h
    · rw [timitCsvAfter_lerDev, timitCsvAfter_lerTrain] at h
      exact map_tag_ne hne' (by decide) h

/-- Witness for C9 at `max_steps = 200` (CSJ) and `max_steps = 10`
(TIMIT): one logging step each. -/
theorem c9_witness :
    (200 : ℕ) ≤ 200 ∧ (10 : ℕ) ≤ 10 ∧
    (csjCsvAfter 200).lerMainDev ∉ [(csjCsvAfter 200).lossTrain,
      (csjCsvAfter 200).lossDev, (csjCsvAfter 200).lerMainTrain,
      (csjCsvAfter 200).lerSecondTrain, (csjCsvAfter 200).lerSecondDev] ∧
    (timitCsvAfter 10).lerDev ∉ [(timitCsvAfter 10).lossTrain,
      (timitCsvAfter 10).lossDev, (timitCsvAfter 10).lerTrain] :=
  ⟨by decide, by decide,
   (c9_csv_export_mismatch 200 10 (by decide) (by decide)).2.2.1,
   (c9_csv_export_mismatch 200 10 (by decide) (by decide)).2.2.2⟩

/-!
## Per-phase analysis of `main` (towards C6 and C7)
-/

theorem pureOk {α : Type} {a b : α} (h : (pure a : Except PyError α) = .ok b) :
    a = b := by
  simpa [pure, Except.pure] using h

theorem asSect_ok_inv {v : TopVal} {m : Sect} (h : asSect v = .ok m) :
    v = TopVal.sect m := by
  cases v with
  | sect m' =>
      have hm : m' = m := by simpa [asSect] using h
      rw [hm]
  | leaf l => simp [asSect] at h

theorem csjWellTyped_corpus {c : Config} {v : TopVal} (hwt : csjWellTyped c = true)
    (h : pyLookup c "corpus" = .ok v) :
    ∃ m, v = TopVal.sect m ∧
      optKeyIs m "label_type_main"
        (fun l => leafEqStr l "character" || leafEqStr l "kanji") = true ∧
      optKeyIs m "label_type_second"
        (fun l => leafEqStr l "phone" || leafEqStr l "character") = true ∧
      optKeyIs m "train_data_size" leafIsStr = true := by
  unfold csjWellTyped at hwt
  rw [h] at hwt
  simp only [Bool.and_eq_true] at hwt
  obtain ⟨⟨⟨h1, _⟩, _⟩, _⟩ := hwt
  cases v with
  | leaf l => exact absurd h1 (by simp)
  | sect m =>
      simp only [Bool.and_eq_true] at h1
      exact ⟨m, rfl, h1.1.1, h1.1.2, h1.2⟩

theorem csjWellTyped_feature {c : Config} {v : TopVal} (hwt : csjWellTyped c = true)
    (h : pyLookup c "feature" = .ok v) :
    ∃ m, v = TopVal.sect m ∧
      optKeyIs m "input_size" leafIsNum = true ∧
      optKeyIs m "num_stack" leafIsNum = true := by
  unfold csjWellTyped at hwt
  rw [h] at hwt
  simp only [Bool.and_eq_true] at hwt
  obtain ⟨⟨⟨_, h2⟩, _⟩, _⟩ := hwt
  cases v with
  | leaf l => exact absurd h2 (by simp)
  | sect m =>
      simp only [Bool.and_eq_true] at h2
      exact ⟨m, rfl, h2.1, h2.2⟩

theorem csjWellTyped_param {c : Config} {v : TopVal} (hwt : csjWellTyped c = true)
    (h : pyLookup c "param" = .ok v) :
    ∃ m, v = TopVal.sect m ∧
      optKeyIs m "optimizer" leafIsStr = true ∧
      optKeyIs m "batch_size" leafIsNatNum = true ∧
      optKeyIs m "num_epoch" leafIsNatNum = true := by
  unfold csjWellTyped at hwt
  rw [h] at hwt
  simp only [Bool.and_eq_true] at hwt
  obtain ⟨⟨_, h3⟩, _⟩ := hwt
  cases v with
  | leaf l => exact absurd h3 (by simp)
  | sect m =>
      simp only [Bool.and_eq_true] at h3
      exact ⟨m, rfl, h3.1.1, h3.1.2, h3.2⟩

theorem csjWellTyped_modelName {c : Config} {v : TopVal} (hwt : csjWellTyped c = true)
    (h : pyLookup c "model_name" = .ok v) : ∃ s, v = TopVal.leaf (Leaf.str s) := by
  unfold csjWellTyped at hwt
  rw [h] at hwt
  simp only [Bool.and_eq_true] at hwt
  obtain ⟨_, h4⟩ := hwt
  cases v with
  | leaf l =>
      cases l with
      | str s => exact ⟨s, rfl⟩
      | num q => exact absurd h4 (by simp)
  | sect m => exact absurd h4 (by simp)

theorem timitWellTyped_corpus {c : Config} {v : TopVal} (hwt : timitWellTyped c = true)
    (h : pyLookup c "corpus" = .ok v) :
    ∃ m, v = TopVal.sect m ∧
      optKeyIs m "label_type"
        (fun l => leafEqStr l "phone61" || leafEqStr l "phone48"
          || leafEqStr l "phone39" || leafEqStr l "character") = true := by
  unfold timitWellTyped at hwt
  rw [h] at hwt
  simp only [Bool.and_eq_true] at hwt
  obtain ⟨⟨⟨h1, _⟩, _⟩, _⟩ := hwt
  cases v with
  | leaf l => exact absurd h1 (by simp)
  | sect m => exact ⟨m, rfl, h1⟩

theorem timitWellTyped_feature {c : Config} {v : TopVal} (hwt : timitWellTyped c = true)
    (h : pyLookup c "feature" = .ok v) : ∃ m, v = TopVal.sect m := by
  unfold timitWellTyped at hwt
  rw [h] at hwt
  simp only [Bool.and_eq_true] at hwt
  obtain ⟨⟨⟨_, h2⟩, _⟩, _⟩ := hwt
  cases v with
  | leaf l => exact absurd h2 (by simp)
  | sect m => exact ⟨m, rfl⟩

theorem timitWellTyped_param {c : Config} {v : TopVal} (hwt : timitWellTyped c = true)
    (h : pyLookup c "param" = .ok v) :
    ∃ m, v = TopVal.sect m ∧
      optKeyIs m "optimizer" leafIsStr = true ∧
      optKeyIs m "batch_size" leafIsNatNum = true ∧
      optKeyIs m "num_epoch" leafIsNatNum = true := by
  unfold timitWellTyped at hwt
  rw [h] at hwt
  simp only [Bool.and_eq_true] at hwt
  obtain ⟨⟨_, h3⟩, _⟩ := hwt
  cases v with
  | leaf l => exact absurd h3 (by simp)
  | sect m =>
      simp only [Bool.and_eq_true] at h3
      exact ⟨m, rfl, h3.1.1, h3.1.2, h3.2⟩

theorem timitWellTyped_modelName {c : Config} {v : TopVal} (hwt : timitWellTyped c = true)
    (h : pyLookup c "model_name" = .ok v) : ∃ s, v = TopVal.leaf (Leaf.str s) := by
  unfold timitWellTyped at hwt
  rw [h] at hwt
  simp only [Bool.and_eq_true] at hwt
  obtain ⟨_, h4⟩ := hwt
  cases v with
  | leaf l =>
      cases l with
      | str s => exact ⟨s, rfl⟩
      | num q => exact absurd h4 (by simp)
  | sect m => exact absurd h4 (by simp)

theorem readConfigSections_ok {c : Config} {v : Sect × Sect × Sect}
    (h : readConfigSections c = .ok v) :
    pyLookup c "corpus" = .ok (TopVal.sect v.1) ∧
    pyLookup c "feature" = .ok (TopVal.sect v.2.1) ∧
    pyLookup c "param" = .ok (TopVal.sect v.2.2) := by
  unfold readConfigSections at h
  obtain ⟨v1, h1, h⟩ := exceptBindOk h
  obtain ⟨m1, h1s, h⟩ := exceptBindOk h
  obtain ⟨v2, h2, h⟩ := exceptBindOk h
  obtain ⟨m2, h2s, h⟩ := exceptBindOk h
  obtain ⟨v3, h3, h⟩ := exceptBindOk h
  obtain ⟨m3, h3s, h⟩ := exceptBindOk h
  obtain rfl := pureOk h
  rw [asSect_ok_inv h1s] at h1
  rw [asSect_ok_inv h2s] at h2
  rw [asSect_ok_inv h3s] at h3
  exact ⟨h1, h2, h3⟩

theorem readConfigSections_err {c : Config} {e : PyError}
    (hco : ∀ v, pyLookup c "corpus" = .ok v → ∃ m, v = TopVal.sect m)
    (hfe : ∀ v, pyLookup c "feature" = .ok v → ∃ m, v = TopVal.sect m)
    (hpa : ∀ v, pyLookup c "param" = .ok v → ∃ m, v = TopVal.sect m)
    (h : readConfigSections c = .error e) : ∃ k, e = PyError.keyError k := by
  unfold readConfigSections at h
  rcases exceptBindErr h with h | ⟨v1, h1, h⟩
  · exact ⟨_, pyLookup_error_key h⟩
  obtain ⟨m1, rfl⟩ := hco v1 h1
  rcases exceptBindErr h with h | ⟨s1, h1s, h⟩
  · simp [asSect] at h
  rcases exceptBindErr h with h | ⟨v2, h2, h⟩
  · exact ⟨_, pyLookup_error_key h⟩
  obtain ⟨m2, rfl⟩ := hfe v2 h2
  rcases exceptBindErr h with h | ⟨s2, h2s, h⟩
  · simp [asSect] at h
  rcases exceptBindErr h with h | ⟨v3, h3, h⟩
  · exact ⟨_, pyLookup_error_key h⟩
  obtain ⟨m3, rfl⟩ := hpa v3 h3
  rcases exceptBindErr h with h | ⟨s3, h3s, h⟩
  · simp [asSect] at h
  simp [pure, Except.pure] at h

theorem asNum_err {l : Leaf} {e : PyError} (h : asNum l = .error e) :
    leafIsNum l = false := by
  cases l with
  | num q => simp [asNum] at h
  | str s => rfl

theorem requireBound_ok_of_some (nm : String) {v : Option ℕ}
    (h : v.isSome = true) : ∃ n, requireBound nm v = .ok n := by
  cases v with
  | none => simp at h
  | some n => exact ⟨n, rfl⟩

theorem csjOutputSizes_ok {m : Sect} {v : Option ℕ × Option ℕ}
    (h : csjOutputSizes m = .ok v) :
    hasKey m "label_type_main" = true ∧ hasKey m "label_type_second" = true := by
  unfold csjOutputSizes at h
  obtain ⟨l1, h1, h⟩ := exceptBindOk h
  obtain ⟨l2, h2, h⟩ := exceptBindOk h
  exact ⟨pyLookup_ok_hasKey h1, pyLookup_ok_hasKey h2⟩

theorem csjOutputSizes_some {m : Sect} {v : Option ℕ × Option ℕ}
    (h1 : optKeyIs m "label_type_main"
      (fun l => leafEqStr l "character" || leafEqStr l "kanji") = true)
    (h2 : optKeyIs m "label_type_second"
      (fun l => leafEqStr l "phone" || leafEqStr l "character") = true)
    (h : csjOutputSizes m = .ok v) : v.1.isSome = true ∧ v.2.isSome = true := by
  unfold csjOutputSizes at h
  obtain ⟨l1, hl1, h⟩ := exceptBindOk h
  obtain ⟨l2, hl2, h⟩ := exceptBindOk h
  obtain rfl := pureOk h
  constructor
  · have hor := optKeyIs_spec h1 hl1
    simp only [Bool.or_eq_true] at hor
    rcases hor with hc | hc
    · simp [hc]
    · by_cases hA : leafEqStr l1 "character" = true <;> simp [hA, hc]
  · have hor := optKeyIs_spec h2 hl2
    simp only [Bool.or_eq_true] at hor
    rcases hor with hc | hc
    · simp [hc]
    · by_cases hA : leafEqStr l2 "phone" = true <;> simp [hA, hc]

theorem csjOutputSizes_err {m : Sect} {e : PyError}
    (h : csjOutputSizes m = .error e) : ∃ k, e = PyError.keyError k := by
  unfold csjOutputSizes at h
  rcases exceptBindErr h with h | ⟨l1, h1, h⟩
  · exact ⟨_, pyLookup_error_key h⟩
  rcases exceptBindErr h with h | ⟨l2, h2, h⟩
  · exact ⟨_, pyLookup_error_key h⟩
  simp [pure, Except.pure] at h

theorem csjLoadAndCtor_ok {c : Config} {fe pa : Sect} {osm oss : Option ℕ} {v : Unit}
    (h : csjLoadAndCtor c fe pa osm oss = .ok v) :
    hasKey c "model_name" = true ∧
    hasKey pa "batch_size" = true ∧
    hasKey fe "input_size" = true ∧
    hasKey fe "num_stack" = true ∧
    hasKey pa "num_unit" = true ∧
    hasKey pa "num_layer_main" = true ∧
    hasKey pa "num_layer_second" = true ∧
    hasKey pa "main_task_weight" = true ∧
    hasKey pa "weight_init" = true ∧
    hasKey pa "clip_grad" = true ∧
    hasKey pa "clip_activation" = true ∧
    hasKey pa "dropout_input" = true ∧
    hasKey pa "dropout_hidden" = true ∧
    hasKey pa "num_proj" = true ∧
    hasKey pa "weight_decay" = true := by
  unfold csjLoadAndCtor at h
  obtain ⟨a1, k1, h⟩ := exceptBindOk h
  obtain ⟨a2, k2, h⟩ := exceptBindOk h
  obtain ⟨a3, k3, h⟩ := exceptBindOk h
  obtain ⟨a4, k4, h⟩ := exceptBindOk h
  obtain ⟨a5, k5, h⟩ := exceptBindOk h
  obtain ⟨a6, k6, h⟩ := exceptBindOk h
  obtain ⟨a7, k7, h⟩ := exceptBindOk h
  obtain ⟨a8, k8, h⟩ := exceptBindOk h
  obtain ⟨a9, k9, h⟩ := exceptBindOk h
  obtain ⟨a10, k10, h⟩ := exceptBindOk h
  obtain ⟨a11, k11, h⟩ := exceptBindOk h
  obtain ⟨a12, k12, h⟩ := exceptBindOk h
  obtain ⟨a13, k13, h⟩ := exceptBindOk h
  obtain ⟨a14, k14, h⟩ := exceptBindOk h
  obtain ⟨a15, k15, h⟩ := exceptBindOk h
  obtain ⟨a16, k16, h⟩ := exceptBindOk h
  obtain ⟨a17, k17, h⟩ := exceptBindOk h
  obtain ⟨a18, k18, h⟩ := exceptBindOk h
  obtain ⟨a19, k19, h⟩ := exceptBindOk h
  exact ⟨pyLookup_ok_hasKey k1, pyLookup_ok_hasKey k2, pyLookup_ok_hasKey k3,
    pyLookup_ok_hasKey k4, pyLookup_ok_hasKey k7, pyLookup_ok_hasKey k8,
    pyLookup_ok_hasKey k9, pyLookup_ok_hasKey k12, pyLookup_ok_hasKey k13,
    pyLookup_ok_hasKey k14, pyLookup_ok_hasKey k15, pyLookup_ok_hasKey k16,
    pyLookup_ok_hasKey k17, pyLookup_ok_hasKey k18, pyLookup_ok_hasKey k19⟩

theorem csjLoadAndCtor_err {c : Config} {fe pa : Sect} {osm oss : Option ℕ}
    {e : PyError}
    (hisz : optKeyIs fe "input_size" leafIsNum = true)
    (hnst : optKeyIs fe "num_stack" leafIsNum = true)
    (hosm : osm.isSome = true) (hoss : oss.isSome = true)
    (h : csjLoadAndCtor c fe pa osm oss = .error e) :
    ∃ k, e = PyError.keyError k := by
  unfold csjLoadAndCtor at h
  rcases exceptBindErr h with h | ⟨a1, k1, h⟩
  · exact ⟨_, pyLookup_error_key h⟩
  rcases exceptBindErr h with h | ⟨a2, k2, h⟩
  · exact ⟨_, pyLookup_error_key h⟩
  rcases exceptBindErr h with h | ⟨a3, k3, h⟩
  · exact ⟨_, pyLookup_error_key h⟩
  rcases exceptBindErr h with h | ⟨a4, k4, h⟩
  · exact ⟨_, pyLookup_error_key h⟩
  rcases exceptBindErr h with h | ⟨a5, k5, h⟩
  · obtain ⟨q, hq⟩ := asNum_ok_of_num (optKeyIs_spec hisz k3)
    rw [hq] at h
    exact absurd h (by simp)
  rcases exceptBindErr h with h | ⟨a6, k6, h⟩
  · obtain ⟨q, hq⟩ := asNum_ok_of_num (optKeyIs_spec hnst k4)
    rw [hq] at h
    exact absurd h (by simp)
  rcases exceptBindErr h with h | ⟨a7, k7, h⟩
  · exact ⟨_, pyLookup_error_key h⟩
  rcases exceptBindErr h with h | ⟨a8, k8, h⟩
  · exact ⟨_, pyLookup_error_key h⟩
  rcases exceptBindErr h with h | ⟨a9, k9, h⟩
  · exact ⟨_, pyLookup_error_key h⟩
  rcases exceptBindErr h with h | ⟨a10, k10, h⟩
  · obtain ⟨n, hn⟩ := requireBound_ok_of_some "output_size_main" hosm
    rw [hn] at h
    exact absurd h (by simp)
  rcases exceptBindErr h with h | ⟨a11, k11, h⟩
  · obtain ⟨n, hn⟩ := requireBound_ok_of_some "output_size_second" hoss
    rw [hn] at h
    exact absurd h (by simp)
  rcases exceptBindErr h with h | ⟨a12, k12, h⟩
  · exact ⟨_, pyLookup_error_key h⟩
  rcases exceptBindErr h with h | ⟨a13, k13, h⟩
  · exact ⟨_, pyLookup_error_key h⟩
  rcases exceptBindErr h with h | ⟨a14, k14, h⟩
  · exact ⟨_, pyLookup_error_key h⟩
  rcases exceptBindErr h with h | ⟨a15, k15, h⟩
  · exact ⟨_, pyLookup_error_key h⟩
  rcases exceptBindErr h with h | ⟨a16, k16, h⟩
  · exact ⟨_, pyLookup_error_key h⟩
  rcases exceptBindErr h with h | ⟨a17, k17, h⟩
  · exact ⟨_, pyLookup_error_key h⟩
  rcases exceptBindErr h with h | ⟨a18, k18, h⟩
  · exact ⟨_, pyLookup_error_key h⟩
  rcases exceptBindErr h with h | ⟨a19, k19, h⟩
  · exact ⟨_, pyLookup_error_key h⟩
  simp [pure, Except.pure] at h

theorem csjModelName_ok {c : Config} {co fe pa : Sect} {v : String}
    (h : csjModelName c co fe pa = .ok v) :
    hasKey c "model_name" = true ∧
    hasKey pa "num_unit" = true ∧
    hasKey pa "num_layer_main" = true ∧
    hasKey pa "num_layer_second" = true ∧
    hasKey pa "optimizer" = true ∧
    hasKey pa "learning_rate" = true ∧
    hasKey pa "bottleneck_dim" = true ∧
    hasKey pa "num_proj" = true ∧
    hasKey fe "num_stack" = true ∧
    hasKey pa "weight_decay" = true ∧
    hasKey pa "main_task_weight" = true ∧
    hasKey co "train_data_size" = true := by
  unfold csjModelName at h
  obtain ⟨a1, k1, h⟩ := exceptBindOk h
  obtain ⟨a2, k2, h⟩ := exceptBindOk h
  obtain ⟨a3, k3, h⟩ := exceptBindOk h
  obtain ⟨a4, k4, h⟩ := exceptBindOk h
  obtain ⟨a5, k5, h⟩ := exceptBindOk h
  obtain ⟨a6, k6, h⟩ := exceptBindOk h
  obtain ⟨a7, k7, h⟩ := exceptBindOk h
  obtain ⟨a8, k8, h⟩ := exceptBindOk h
  obtain ⟨a9, k9, h⟩ := exceptBindOk h
  obtain ⟨a10, k10, h⟩ := exceptBindOk h
  obtain ⟨a11, k11, h⟩ := exceptBindOk h
  obtain ⟨a12, k12, h⟩ := exceptBindOk h
  obtain ⟨a13, k13, h⟩ := exceptBindOk h
  obtain ⟨a14, k14, h⟩ := exceptBindOk h
  exact ⟨pyLookup_ok_hasKey k1, pyLookup_ok_hasKey k3, pyLookup_ok_hasKey k4,
    pyLookup_ok_hasKey k5, pyLookup_ok_hasKey k6, pyLookup_ok_hasKey k8,
    pyLookup_ok_hasKey k9, pyLookup_ok_hasKey k10, pyLookup_ok_hasKey k11,
    pyLookup_ok_hasKey k12, pyLookup_ok_hasKey k13, pyLookup_ok_hasKey k14⟩

theorem csjModelName_err {c : Config} {co fe pa : Sect} {e : PyError}
    (hmn : ∀ v, pyLookup c "model_name" = .ok v → ∃ s, v = TopVal.leaf (Leaf.str s))
    (hopt : optKeyIs pa "optimizer" leafIsStr = true)
    (h : csjModelName c co fe pa = .error e) : ∃ k, e = PyError.keyError k := by
  unfold csjModelName at h
  rcases exceptBindErr h with h | ⟨a1, k1, h⟩
  · exact ⟨_, pyLookup_error_key h⟩
  rcases exceptBindErr h with h | ⟨a2, k2, h⟩
  · obtain ⟨s, rfl⟩ := hmn a1 k1
    simp [topUpper] at h
  rcases exceptBindErr h with h | ⟨a3, k3, h⟩
  · exact ⟨_, pyLookup_error_key h⟩
  rcases exceptBindErr h with h | ⟨a4, k4, h⟩
  · exact ⟨_, pyLookup_error_key h⟩
  rcases exceptBindErr h with h | ⟨a5, k5, h⟩
  · exact ⟨_, pyLookup_error_key h⟩
  rcases exceptBindErr h with h | ⟨a6, k6, h⟩
  · exact ⟨_, pyLookup_error_key h⟩
  rcases exceptBindErr h with h | ⟨a7, k7, h⟩
  · obtain ⟨s, hs⟩ := leafStr_ok_of_str (optKeyIs_spec hopt k6)
    rw [hs] at h
    exact absurd h (by simp)
  rcases exceptBindErr h with h | ⟨a8, k8, h⟩
  · exact ⟨_, pyLookup_error_key h⟩
  rcases exceptBindErr h with h | ⟨a9, k9, h⟩
  · exact ⟨_, pyLookup_error_key h⟩
  rcases exceptBindErr h with h | ⟨a10, k10, h⟩
  · exact ⟨_, pyLookup_error_key h⟩
  rcases exceptBindErr h with h | ⟨a11, k11, h⟩
  · exact ⟨_, pyLookup_error_key h⟩
  rcases exceptBindErr h with h | ⟨a12, k12, h⟩
  · exact ⟨_, pyLookup_error_key h⟩
  rcases exceptBindErr h with h | ⟨a13, k13, h⟩
  · exact ⟨_, pyLookup_error_key h⟩
  rcases exceptBindErr h with h | ⟨a14, k14, h⟩
  · exact ⟨_, pyLookup_error_key h⟩
  simp [pure, Except.pure] at h

theorem resetModelDir_ok {fs : FS} (h : fs.completeExists = false) :
    resetModelDir fs =
      .ok [Event.makeModelDir, Event.deleteModelDir, Event.makeModelDir] := by
  simp [resetModelDir, h]

theorem csjProcTitle_ok {co : Sect} {v : Unit} (h : csjProcTitle co = .ok v) :
    hasKey co "label_type_main" = true ∧
    hasKey co "label_type_second" = true ∧
    hasKey co "train_data_size" = true := by
  unfold csjProcTitle at h
  obtain ⟨a1, k1, h⟩ := exceptBindOk h
  obtain ⟨a2, k2, h⟩ := exceptBindOk h
  obtain ⟨a3, k3, h⟩ := exceptBindOk h
  obtain ⟨a4, k4, h⟩ := exceptBindOk h
  obtain ⟨a5, k5, h⟩ := exceptBindOk h
  obtain ⟨a6, k6, h⟩ := exceptBindOk h
  exact ⟨pyLookup_ok_hasKey k1, pyLookup_ok_hasKey k3, pyLookup_ok_hasKey k5⟩

theorem csjProcTitle_err {co : Sect} {e : PyError}
    (h1 : optKeyIs co "label_type_main"
      (fun l => leafEqStr l "character" || leafEqStr l "kanji") = true)
    (h2 : optKeyIs co "label_type_second"
      (fun l => leafEqStr l "phone" || leafEqStr l "character") = true)
    (h3 : optKeyIs co "train_data_size" leafIsStr = true)
    (h : csjProcTitle co = .error e) : ∃ k, e = PyError.keyError k := by
  unfold csjProcTitle at h
  rcases exceptBindErr h with h | ⟨a1, k1, h⟩
  · exact ⟨_, pyLookup_error_key h⟩
  rcases exceptBindErr h with h | ⟨a2, k2, h⟩
  · have hv := optKeyIs_spec h1 k1
    simp only [Bool.or_eq_true] at hv
    have hstr : leafIsStr a1 = true := by
      rcases hv with hc | hc
      · exact leafEqStr_isStr hc
      · exact leafEqStr_isStr hc
    obtain ⟨s, hs⟩ := leafStr_ok_of_str hstr
    rw [hs] at h
    exact absurd h (by simp)
  rcases exceptBindErr h with h | ⟨a3, k3, h⟩
  · exact ⟨_, pyLookup_error_key h⟩
  rcases exceptBindErr h with h | ⟨a4, k4, h⟩
  · have hv := optKeyIs_spec h2 k3
    simp only [Bool.or_eq_true] at hv
    have hstr : leafIsStr a3 = true := by
      rcases hv with hc | hc
      · exact leafEqStr_isStr hc
      · exact leafEqStr_isStr hc
    obtain ⟨s, hs⟩ := leafStr_ok_of_str hstr
    rw [hs] at h
    exact absurd h (by simp)
  rcases exceptBindErr h with h | ⟨a5, k5, h⟩
  · exact ⟨_, pyLookup_error_key h⟩
  rcases exceptBindErr h with h | ⟨a6, k6, h⟩
  · obtain ⟨s, hs⟩ := leafStr_ok_of_str (optKeyIs_spec h3 k5)
    rw [hs] at h
    exact absurd h (by simp)
  simp [pure, Except.pure] at h

theorem csjDoTrainArgs_ok {co fe pa : Sect} {v : ℕ × ℕ}
    (h : csjDoTrainArgs co fe pa = .ok v) :
    hasKey pa "optimizer" = true ∧
    hasKey pa "learning_rate" = true ∧
    hasKey pa "batch_size" = true ∧
    hasKey pa "num_epoch" = true ∧
    hasKey co "label_type_main" = true ∧
    hasKey co "label_type_second" = true ∧
    hasKey fe "num_stack" = true ∧
    hasKey fe "num_skip" = true ∧
    hasKey co "train_data_size" = true := by
  unfold csjDoTrainArgs at h
  obtain ⟨a1, k1, h⟩ := exceptBindOk h
  obtain ⟨a2, k2, h⟩ := exceptBindOk h
  obtain ⟨a3, k3, h⟩ := exceptBindOk h
  obtain ⟨a4, k4, h⟩ := exceptBindOk h
  obtain ⟨a5, k5, h⟩ := exceptBindOk h
  obtain ⟨a6, k6, h⟩ := exceptBindOk h
  obtain ⟨a7, k7, h⟩ := exceptBindOk h
  obtain ⟨a8, k8, h⟩ := exceptBindOk h
  obtain ⟨a9, k9, h⟩ := exceptBindOk h
  obtain ⟨a10, k10, h⟩ := exceptBindOk h
  obtain ⟨a11, k11, h⟩ := exceptBindOk h
  exact ⟨pyLookup_ok_hasKey k1, pyLookup_ok_hasKey k2, pyLookup_ok_hasKey k3,
    pyLookup_ok_hasKey k5, pyLookup_ok_hasKey k7, pyLookup_ok_hasKey k8,
    pyLookup_ok_hasKey k9, pyLookup_ok_hasKey k10, pyLookup_ok_hasKey k11⟩

theorem csjDoTrainArgs_err {co fe pa : Sect} {e : PyError}
    (hbs : optKeyIs pa "batch_size" leafIsNatNum = true)
    (hne : optKeyIs pa "num_epoch" leafIsNatNum = true)
    (h : csjDoTrainArgs co fe pa = .error e) : ∃ k, e = PyError.keyError k := by
  unfold csjDoTrainArgs at h
  rcases exceptBindErr h with h | ⟨a1, k1, h⟩
  · exact ⟨_, pyLookup_error_key h⟩
  rcases exceptBindErr h with h | ⟨a2, k2, h⟩
  · exact ⟨_, pyLookup_error_key h⟩
  rcases exceptBindErr h with h | ⟨a3, k3, h⟩
  · exact ⟨_, pyLookup_error_key h⟩
  rcases exceptBindErr h with h | ⟨a4, k4, h⟩
  · obtain ⟨n, hn⟩ := asNat_ok_of_natNum (optKeyIs_spec hbs k3)
    rw [hn] at h
    exact absurd h (by simp)
  rcases exceptBindErr h with h | ⟨a5, k5, h⟩
  · exact ⟨_, pyLookup_error_key h⟩
  rcases exceptBindErr h with h | ⟨a6, k6, h⟩
  · obtain ⟨n, hn⟩ := asNat_ok_of_natNum (optKeyIs_spec hne k5)
    rw [hn] at h
    exact absurd h (by simp)
  rcases exceptBindErr h with h | ⟨a7, k7, h⟩
  · exact ⟨_, pyLookup_error_key h⟩
  rcases exceptBindErr h with h | ⟨a8, k8, h⟩
  · exact ⟨_, pyLookup_error_key h⟩
  rcases exceptBindErr h with h | ⟨a9, k9, h⟩
  · exact ⟨_, pyLookup_error_key h⟩
  rcases exceptBindErr h with h | ⟨a10, k10, h⟩
  · exact ⟨_, pyLookup_error_key h⟩
  rcases exceptBindErr h with h | ⟨a11, k11, h⟩
  · exact ⟨_, pyLookup_error_key h⟩
  simp [pure, Except.pure] at h

theorem csjMain_ok_inv {c : Config} {fs : FS} {d : ℕ} {r : MainResult}
    (h : csjMain c fs d = .ok r) :
    csjHasAllRequired c = true ∧
    fs.completeExists = false ∧
    ∃ bs en, r.trace =
      [Event.makeModelDir, Event.deleteModelDir, Event.makeModelDir]
      ++ [Event.setProcTitle, Event.copyConfig "config.yml",
          Event.redirectStdout "train.log"]
      ++ csjDoTrainTrace d bs en := by
  unfold csjMain at h
  obtain ⟨secs, hsecs, h⟩ := exceptBindOk h
  obtain ⟨sizes, hsz, h⟩ := exceptBindOk h
  obtain ⟨u1, hctor, h⟩ := exceptBindOk h
  obtain ⟨name, hname, h⟩ := exceptBindOk h
  obtain ⟨dirEvents, hdir, h⟩ := exceptBindOk h
  obtain ⟨u2, hproc, h⟩ := exceptBindOk h
  obtain ⟨args, hargs, h⟩ := exceptBindOk h
  obtain rfl := pureOk h
  obtain ⟨hco, hfe, hpa⟩ := readConfigSections_ok hsecs
  obtain ⟨hk_ltm, hk_lts⟩ := csjOutputSizes_ok hsz
  obtain ⟨hk_mn, hk_bs, hk_isz, hk_nst, hk_nu, hk_nlm, hk_nls, hk_mtw, hk_wi,
    hk_cg, hk_ca, hk_di, hk_dh, hk_np, hk_wd⟩ := csjLoadAndCtor_ok hctor
  obtain ⟨_, _, _, _, hk_opt, hk_lr, hk_bd, _, _, _, _, hk_tds⟩ :=
    csjModelName_ok hname
  obtain ⟨_, _, _, hk_nepoch, _, _, _, hk_nskip, _⟩ := csjDoTrainArgs_ok hargs
  have hcedir : fs.completeExists = false ∧
      dirEvents = [Event.makeModelDir, Event.deleteModelDir, Event.makeModelDir] := by
    revert hdir
    unfold resetModelDir
    rcases fs with ⟨de, ce⟩
    cases ce
    · intro hdir
      refine ⟨rfl, ?_⟩
      simpa using hdir.symm
    · intro hdir
      simp at hdir
  refine ⟨?_, hcedir.1, args.1, args.2, ?_⟩
  · simp [csjHasAllRequired, sectKeysPresent, hco, hfe, hpa, csjCorpusKeys,
      csjFeatureKeys, csjParamKeys, hk_ltm, hk_lts, hk_tds, hk_isz, hk_nst,
      hk_nskip, hk_bs, hk_nu, hk_nlm, hk_nls, hk_mtw, hk_wi, hk_cg, hk_ca,
      hk_di, hk_dh, hk_np, hk_wd, hk_opt, hk_lr, hk_bd, hk_nepoch, hk_mn]
  · rw [hcedir.2]

theorem csjMain_err_keyError {c : Config} {fs : FS} {d : ℕ} {e : PyError}
    (hwt : csjWellTyped c = true) (hce : fs.completeExists = false)
    (h : csjMain c fs d = .error e) : ∃ k, e = PyError.keyError k := by
  unfold csjMain at h
  rcases exceptBindErr h with h | ⟨secs, hsecs, h⟩
  · refine readConfigSections_err ?_ ?_ ?_ h
    · intro v hv
      obtain ⟨m, hm, _⟩ := csjWellTyped_corpus hwt hv
      exact ⟨m, hm⟩
    · intro v hv
      obtain ⟨m, hm, _⟩ := csjWellTyped_feature hwt hv
      exact ⟨m, hm⟩
    · intro v hv
      obtain ⟨m, hm, _⟩ := csjWellTyped_param hwt hv
      exact ⟨m, hm⟩
  obtain ⟨hco, hfe, hpa⟩ := readConfigSections_ok hsecs
  obtain ⟨m1, hm1, p_ltm, p_lts, p_tds⟩ := csjWellTyped_corpus hwt hco
  injection hm1 with hm1e
  subst hm1e
  obtain ⟨m2, hm2, p_isz, p_nst⟩ := csjWellTyped_feature hwt hfe
  injection hm2 with hm2e
  subst hm2e
  obtain ⟨m3, hm3, p_opt, p_bs, p_ne⟩ := csjWellTyped_param hwt hpa
  injection hm3 with hm3e
  subst hm3e
  rcases exceptBindErr h with h | ⟨sizes, hsz, h⟩
  · exact csjOutputSizes_err h
  obtain ⟨hsm1, hsm2⟩ := csjOutputSizes_some p_ltm p_lts hsz
  rcases exceptBindErr h with h | ⟨u1, hctor, h⟩
  · exact csjLoadAndCtor_err p_isz p_nst hsm1 hsm2 h
  rcases exceptBindErr h with h | ⟨name, hname, h⟩
  · exact csjModelName_err (fun v hv => csjWellTyped_modelName hwt hv) p_opt h
  rcases exceptBindErr h with h | ⟨dirEvents, hdir, h⟩
  · rw [resetModelDir_ok hce] at h
    exact absurd h (by simp)
  rcases exceptBindErr h with h | ⟨u2, hproc, h⟩
  · exact csjProcTitle_err p_ltm p_lts p_tds h
  rcases exceptBindErr h with h | ⟨args, hargs, h⟩
  · exact csjDoTrainArgs_err p_bs p_ne h
  simp [pure, Except.pure] at h

theorem timitLabel_isStr {l : Leaf}
    (hv : (leafEqStr l "phone61" || leafEqStr l "phone48"
      || leafEqStr l "phone39" || leafEqStr l "character") = true) :
    leafIsStr l = true := by
  simp only [Bool.or_eq_true] at hv
  rcases hv with ((h | h) | h) | h <;> exact leafEqStr_isStr h

theorem timitOutputSize_ok {m : Sect} {v : Option ℕ}
    (h : timitOutputSize m = .ok v) : hasKey m "label_type" = true := by
  unfold timitOutputSize at h
  obtain ⟨l1, h1, h⟩ := exceptBindOk h
  exact pyLookup_ok_hasKey h1

theorem timitOutputSize_some {m : Sect} {v : Option ℕ}
    (h1 : optKeyIs m "label_type"
      (fun l => leafEqStr l "phone61" || leafEqStr l "phone48"
        || leafEqStr l "phone39" || leafEqStr l "character") = true)
    (h : timitOutputSize m = .ok v) : v.isSome = true := by
  unfold timitOutputSize at h
  obtain ⟨l1, hl1, h⟩ := exceptBindOk h
  obtain rfl := pureOk h
  have hv := optKeyIs_spec h1 hl1
  simp only [Bool.or_eq_true] at hv
  by_cases hA : leafEqStr l1 "phone61" = true
  · simp [hA]
  · by_cases hB : leafEqStr l1 "phone48" = true
    · simp [hA, hB]
    · by_cases hC : leafEqStr l1 "phone39" = true
      · simp [hA, hB, hC]
      · have hD : leafEqStr l1 "character" = true := by
          rcases hv with ((h | h) | h) | h
          · exact absurd h hA
          · exact absurd h hB
          · exact absurd h hC
          · exact h
        simp [hA, hB, hC, hD]

theorem timitOutputSize_err {m : Sect} {e : PyError}
    (h : timitOutputSize m = .error e) : ∃ k, e = PyError.keyError k := by
  unfold timitOutputSize at h
  rcases exceptBindErr h with h | ⟨l1, h1, h⟩
  · exact ⟨_, pyLookup_error_key h⟩
  simp [pure, Except.pure] at h

theorem timitCtor_ok {fe pa : Sect} {osize : Option ℕ} {v : Unit}
    (h : timitCtor fe pa osize = .ok v) :
    hasKey pa "batch_size" = true ∧
    hasKey fe "input_size" = true ∧
    hasKey pa "encoder_num_unit" = true ∧
    hasKey pa "encoder_num_layer" = true ∧
    hasKey pa "attention_dim" = true ∧
    hasKey pa "decoder_num_unit" = true ∧
    hasKey pa "decoder_num_layer" = true ∧
    hasKey pa "embedding_dim" = true ∧
    hasKey pa "max_decode_length" = true ∧
    hasKey pa "attention_weights_tempareture" = true ∧
    hasKey pa "logits_tempareture" = true ∧
    hasKey pa "weight_init" = true ∧
    hasKey pa "clip_grad" = true ∧
    hasKey pa "clip_activation_encoder" = true ∧
    hasKey pa "clip_activation_decoder" = true ∧
    hasKey pa "dropout_input" = true ∧
    hasKey pa "dropout_hidden" = true ∧
    hasKey pa "weight_decay" = true := by
  unfold timitCtor at h
  obtain ⟨a1, k1, h⟩ := exceptBindOk h
  obtain ⟨a2, k2, h⟩ := exceptBindOk h
  obtain ⟨a3, k3, h⟩ := exceptBindOk h
  obtain ⟨a4, k4, h⟩ := exceptBindOk h
  obtain ⟨a5, k5, h⟩ := exceptBindOk h
  obtain ⟨a6, k6, h⟩ := exceptBindOk h
  obtain ⟨a7, k7, h⟩ := exceptBindOk h
  obtain ⟨a8, k8, h⟩ := exceptBindOk h
  obtain ⟨a9, k9, h⟩ := exceptBindOk h
  obtain ⟨a10, k10, h⟩ := exceptBindOk h
  obtain ⟨a11, k11, h⟩ := exceptBindOk h
  obtain ⟨a12, k12, h⟩ := exceptBindOk h
  obtain ⟨a13, k13, h⟩ := exceptBindOk h
  obtain ⟨a14, k14, h⟩ := exceptBindOk h
  obtain ⟨a15, k15, h⟩ := exceptBindOk h
  obtain ⟨a16, k16, h⟩ := exceptBindOk h
  obtain ⟨a17, k17, h⟩ := exceptBindOk h
  obtain ⟨a18, k18, h⟩ := exceptBindOk h
  obtain ⟨a19, k19, h⟩ := exceptBindOk h
  exact ⟨pyLookup_ok_hasKey k1, pyLookup_ok_hasKey k2, pyLookup_ok_hasKey k3,
    pyLookup_ok_hasKey k4, pyLookup_ok_hasKey k5, pyLookup_ok_hasKey k6,
    pyLookup_ok_hasKey k7, pyLookup_ok_hasKey k8, pyLookup_ok_hasKey k10,
    pyLookup_ok_hasKey k11, pyLookup_ok_hasKey k12, pyLookup_ok_hasKey k13,
    pyLookup_ok_hasKey k14, pyLookup_ok_hasKey k15, pyLookup_ok_hasKey k16,
    pyLookup_ok_hasKey k17, pyLookup_ok_hasKey k18, pyLookup_ok_hasKey k19⟩

theorem timitCtor_err {fe pa : Sect} {osize : Option ℕ} {e : PyError}
    (hos : osize.isSome = true)
    (h : timitCtor fe pa osize = .error e) : ∃ k, e = PyError.keyError k := by
  unfold timitCtor at h
  rcases exceptBindErr h with h | ⟨a1, k1, h⟩
  · exact ⟨_, pyLookup_error_key h⟩
  rcases exceptBindErr h with h | ⟨a2, k2, h⟩
  · exact ⟨_, pyLookup_error_key h⟩
  rcases exceptBindErr h with h | ⟨a3, k3, h⟩
  · exact ⟨_, pyLookup_error_key h⟩
  rcases exceptBindErr h with h | ⟨a4, k4, h⟩
  · exact ⟨_, pyLookup_error_key h⟩
  rcases exceptBindErr h with h | ⟨a5, k5, h⟩
  · exact ⟨_, pyLookup_error_key h⟩
  rcases exceptBindErr h with h | ⟨a6, k6, h⟩
  · exact ⟨_, pyLookup_error_key h⟩
  rcases exceptBindErr h with h | ⟨a7, k7, h⟩
  · exact ⟨_, pyLookup_error_key h⟩
  rcases exceptBindErr h with h | ⟨a8, k8, h⟩
  · exact ⟨_, pyLookup_error_key h⟩
  rcases exceptBindErr h with h | ⟨a9, k9, h⟩
  · obtain ⟨n, hn⟩ := requireBound_ok_of_some "output_size" hos
    rw [hn] at h
    exact absurd h (by simp)
  rcases exceptBindErr h with h | ⟨a10, k10, h⟩
  · exact ⟨_, pyLookup_error_key h⟩
  rcases exceptBindErr h with h | ⟨a11, k11, h⟩
  · exact ⟨_, pyLookup_error_key h⟩
  rcases exceptBindErr h with h | ⟨a12, k12, h⟩
  · exact ⟨_, pyLookup_error_key h⟩
  rcases exceptBindErr h with h | ⟨a13, k13, h⟩
  · exact ⟨_, pyLookup_error_key h⟩
  rcases exceptBindErr h with h | ⟨a14, k14, h⟩
  · exact ⟨_, pyLookup_error_key h⟩
  rcases exceptBindErr h with h | ⟨a15, k15, h⟩
  · exact ⟨_, pyLookup_error_key h⟩
  rcases exceptBindErr h with h | ⟨a16, k16, h⟩
  · exact ⟨_, pyLookup_error_key h⟩
  rcases exceptBindErr h with h | ⟨a17, k17, h⟩
  · exact ⟨_, pyLookup_error_key h⟩
  rcases exceptBindErr h with h | ⟨a18, k18, h⟩
  · exact ⟨_, pyLookup_error_key h⟩
  rcases exceptBindErr h with h | ⟨a19, k19, h⟩
  · exact ⟨_, pyLookup_error_key h⟩
  simp [pure, Except.pure] at h

theorem timitModelName_ok {c : Config} {pa : Sect} {v : String}
    (h : timitModelName c pa = .ok v) :
    hasKey c "model_name" = true ∧
    hasKey pa "encoder_num_unit" = true ∧
    hasKey pa "encoder_num_layer" = true ∧
    hasKey pa "attention_dim" = true ∧
    hasKey pa "decoder_num_unit" = true ∧
    hasKey pa "decoder_num_layer" = true ∧
    hasKey pa "optimizer" = true ∧
    hasKey pa "learning_rate" = true ∧
    hasKey pa "weight_decay" = true := by
  unfold timitModelName at h
  obtain ⟨a1, k1, h⟩ := exceptBindOk h
  obtain ⟨a2, k2, h⟩ := exceptBindOk h
  obtain ⟨a3, k3, h⟩ := exceptBindOk h
  obtain ⟨a4, k4, h⟩ := exceptBindOk h
  obtain ⟨a5, k5, h⟩ := exceptBindOk h
  obtain ⟨a6, k6, h⟩ := exceptBindOk h
  obtain ⟨a7, k7, h⟩ := exceptBindOk h
  obtain ⟨a8, k8, h⟩ := exceptBindOk h
  obtain ⟨a9, k9, h⟩ := exceptBindOk h
  obtain ⟨a10, k10, h⟩ := exceptBindOk h
  obtain ⟨a11, k11, h⟩ := exceptBindOk h
  exact ⟨pyLookup_ok_hasKey k1, pyLookup_ok_hasKey k3, pyLookup_ok_hasKey k4,
    pyLookup_ok_hasKey k5, pyLookup_ok_hasKey k6, pyLookup_ok_hasKey k7,
    pyLookup_ok_hasKey k8, pyLookup_ok_hasKey k10, pyLookup_ok_hasKey k11⟩

theorem timitModelName_err {c : Config} {pa : Sect} {e : PyError}
    (hmn : ∀ v, pyLookup c "model_name" = .ok v → ∃ s, v = TopVal.leaf (Leaf.str s))
    (hopt : optKeyIs pa "optimizer" leafIsStr = true)
    (h : timitModelName c pa = .error e) : ∃ k, e = PyError.keyError k := by
  unfold timitModelName at h
  rcases exceptBindErr h with h | ⟨a1, k1, h⟩
  · exact ⟨_, pyLookup_error_key h⟩
  rcases exceptBindErr h with h | ⟨a2, k2, h⟩
  · obtain ⟨s, rfl⟩ := hmn a1 k1
    simp [topUpper] at h
  rcases exceptBindErr h with h | ⟨a3, k3, h⟩
  · exact ⟨_, pyLookup_error_key h⟩
  rcases exceptBindErr h with h | ⟨a4, k4, h⟩
  · exact ⟨_, pyLookup_error_key h⟩
  rcases exceptBindErr h with h | ⟨a5, k5, h⟩
  · exact ⟨_, pyLookup_error_key h⟩
  rcases exceptBindErr h with h | ⟨a6, k6, h⟩
  · exact ⟨_, pyLookup_error_key h⟩
  rcases exceptBindErr h with h | ⟨a7, k7, h⟩
  · exact ⟨_, pyLookup_error_key h⟩
  rcases exceptBindErr h with h | ⟨a8, k8, h⟩
  · exact ⟨_, pyLookup_error_key h⟩
  rcases exceptBindErr h with h | ⟨a9, k9, h⟩
  · obtain ⟨s, hs⟩ := leafStr_ok_of_str (optKeyIs_spec hopt k8)
    rw [hs] at h
    exact absurd h (by simp)
  rcases exceptBindErr h with h | ⟨a10, k10, h⟩
  · exact ⟨_, pyLookup_error_key h⟩
  rcases exceptBindErr h with h | ⟨a11, k11, h⟩
  · exact ⟨_, pyLookup_error_key h⟩
  simp [pure, Except.pure] at h

theorem timitDoTrainArgs_ok {co pa : Sect} {v : ℕ × ℕ}
    (h : timitDoTrainArgs co pa = .ok v) :
    hasKey pa "optimizer" = true ∧
    hasKey pa "learning_rate" = true ∧
    hasKey pa "batch_size" = true ∧
    hasKey pa "num_epoch" = true ∧
    hasKey co "label_type" = true := by
  unfold timitDoTrainArgs at h
  obtain ⟨a1, k1, h⟩ := exceptBindOk h
  obtain ⟨a2, k2, h⟩ := exceptBindOk h
  obtain ⟨a3, k3, h⟩ := exceptBindOk h
  obtain ⟨a4, k4, h⟩ := exceptBindOk h
  obtain ⟨a5, k5, h⟩ := exceptBindOk h
  obtain ⟨a6, k6, h⟩ := exceptBindOk h
  obtain ⟨a7, k7, h⟩ := exceptBindOk h
  exact ⟨pyLookup_ok_hasKey k1, pyLookup_ok_hasKey k2, pyLookup_ok_hasKey k3,
    pyLookup_ok_hasKey k5, pyLookup_ok_hasKey k7⟩

theorem timitDoTrainArgs_err {co pa : Sect} {e : PyError}
    (hbs : optKeyIs pa "batch_size" leafIsNatNum = true)
    (hne : optKeyIs pa "num_epoch" leafIsNatNum = true)
    (h : timitDoTrainArgs co pa = .error e) : ∃ k, e = PyError.keyError k := by
  unfold timitDoTrainArgs at h
  rcases exceptBindErr h with h | ⟨a1, k1, h⟩
  · exact ⟨_, pyLookup_error_key h⟩
  rcases exceptBindErr h with h | ⟨a2, k2, h⟩
  · exact ⟨_, pyLookup_error_key h⟩
  rcases exceptBindErr h with h | ⟨a3, k3, h⟩
  · exact ⟨_, pyLookup_error_key h⟩
  rcases exceptBindErr h with h | ⟨a4, k4, h⟩
  · obtain ⟨n, hn⟩ := asNat_ok_of_natNum (optKeyIs_spec hbs k3)
    rw [hn] at h
    exact absurd h (by simp)
  rcases exceptBindErr h with h | ⟨a5, k5, h⟩
  · exact ⟨_, pyLookup_error_key h⟩
  rcases exceptBindErr h with h | ⟨a6, k6, h⟩
  · obtain ⟨n, hn⟩ := asNat_ok_of_natNum (optKeyIs_spec hne k5)
    rw [hn] at h
    exact absurd h (by simp)
  rcases exceptBindErr h with h | ⟨a7, k7, h⟩
  · exact ⟨_, pyLookup_error_key h⟩
  simp [pure, Except.pure] at h

theorem timitMain_ok_inv {c : Config} {fs : FS} {d : ℕ} {isBest : ℕ → Bool}
    {r : MainResult} (h : timitMain c fs d isBest = .ok r) :
    timitHasAllRequired c = true ∧
    fs.completeExists = false ∧
    ∃ bs en, r.trace =
      [Event.makeModelDir, Event.deleteModelDir, Event.makeModelDir]
      ++ [Event.setProcTitle, Event.copyConfig "config.yml",
          Event.redirectStdout "train.log"]
      ++ timitDoTrainTrace d bs en isBest := by
  unfold timitMain at h
  obtain ⟨secs, hsecs, h⟩ := exceptBindOk h
  obtain ⟨osize, hos, h⟩ := exceptBindOk h
  obtain ⟨u1, hctor, h⟩ := exceptBindOk h
  obtain ⟨name, hname, h⟩ := exceptBindOk h
  obtain ⟨lt1, hlt1, h⟩ := exceptBindOk h
  obtain ⟨s1, hs1, h⟩ := exceptBindOk h
  obtain ⟨dirEvents, hdir, h⟩ := exceptBindOk h
  obtain ⟨lt2, hlt2, h⟩ := exceptBindOk h
  obtain ⟨s2, hs2, h⟩ := exceptBindOk h
  obtain ⟨args, hargs, h⟩ := exceptBindOk h
  obtain rfl := pureOk h
  obtain ⟨hco, hfe, hpa⟩ := readConfigSections_ok hsecs
  have hk_lt := timitOutputSize_ok hos
  obtain ⟨hk_bs, hk_isz, hk_enu, hk_enl, hk_ad, hk_dnu, hk_dnl, hk_ed, hk_mdl,
    hk_awt, hk_lt2, hk_wi, hk_cg, hk_cae, hk_cad, hk_di, hk_dh, hk_wd⟩ :=
    timitCtor_ok hctor
  obtain ⟨hk_mn, _, _, _, _, _, hk_opt, hk_lr, _⟩ := timitModelName_ok hname
  obtain ⟨_, _, _, hk_nepoch, _⟩ := timitDoTrainArgs_ok hargs
  have hcedir : fs.completeExists = false ∧
      dirEvents = [Event.makeModelDir, Event.deleteModelDir, Event.makeModelDir] := by
    revert hdir
    unfold resetModelDir
    rcases fs with ⟨de, ce⟩
    cases ce
    · intro hdir
      refine ⟨rfl, ?_⟩
      simpa using hdir.symm
    · intro hdir
      simp at hdir
  refine ⟨?_, hcedir.1, args.1, args.2, ?_⟩
  · simp [timitHasAllRequired, sectKeysPresent, hco, hfe, hpa, timitCorpusKeys,
      timitFeatureKeys, timitParamKeys, hk_lt, hk_bs, hk_isz, hk_enu, hk_enl,
      hk_ad, hk_dnu, hk_dnl, hk_ed, hk_mdl, hk_awt, hk_lt2, hk_wi, hk_cg,
      hk_cae, hk_cad, hk_di, hk_dh, hk_wd, hk_mn, hk_opt, hk_lr, hk_nepoch]
  · rw [hcedir.2]

theorem timitMain_err_keyError {c : Config} {fs : FS} {d : ℕ} {isBest : ℕ → Bool}
    {e : PyError} (hwt : timitWellTyped c = true) (hce : fs.completeExists = false)
    (h : timitMain c fs d isBest = .error e) : ∃ k, e = PyError.keyError k := by
  unfold timitMain at h
  rcases exceptBindErr h with h | ⟨secs, hsecs, h⟩
  · refine readConfigSections_err ?_ ?_ ?_ h
    · intro v hv
      obtain ⟨m, hm, _⟩ := timitWellTyped_corpus hwt hv
      exact ⟨m, hm⟩
    · intro v hv
      exact timitWellTyped_feature hwt hv
    · intro v hv
      obtain ⟨m, hm, _⟩ := timitWellTyped_param hwt hv
      exact ⟨m, hm⟩
  obtain ⟨hco, hfe, hpa⟩ := readConfigSections_ok hsecs
  obtain ⟨m1, hm1, p_lt⟩ := timitWellTyped_corpus hwt hco
  injection hm1 with hm1e
  subst hm1e
  obtain ⟨m3, hm3, p_opt, p_bs, p_ne⟩ := timitWellTyped_param hwt hpa
  injection hm3 with hm3e
  subst hm3e
  rcases exceptBindErr h with h | ⟨osize, hos, h⟩
  · exact timitOutputSize_err h
  have hsome := timitOutputSize_some p_lt hos
  rcases exceptBindErr h with h | ⟨u1, hctor, h⟩
  · exact timitCtor_err hsome h
  rcases exceptBindErr h with h | ⟨name, hname, h⟩
  · exact timitModelName_err (fun v hv => timitWellTyped_modelName hwt hv) p_opt h
  rcases exceptBindErr h with h | ⟨lt1, hlt1, h⟩
  · exact ⟨_, pyLookup_error_key h⟩
  rcases exceptBindErr h with h | ⟨s1, hs1, h⟩
  · obtain ⟨s, hs⟩ := leafStr_ok_of_str (timitLabel_isStr (optKeyIs_spec p_lt hlt1))
    rw [hs] at h
    exact absurd h (by simp)
  rcases exceptBindErr h with h | ⟨dirEvents, hdir, h⟩
  · rw [resetModelDir_ok hce] at h
    exact absurd h (by simp)
  rcases exceptBindErr h with h | ⟨lt2, hlt2, h⟩
  · exact ⟨_, pyLookup_error_key h⟩
  rcases exceptBindErr h with h | ⟨s2, hs2, h⟩
  · obtain ⟨s, hs⟩ := leafStr_ok_of_str (timitLabel_isStr (optKeyIs_spec p_lt hlt2))
    rw [hs] at h
    exact absurd h (by simp)
  rcases exceptBindErr h with h | ⟨args, hargs, h⟩
  · exact timitDoTrainArgs_err p_bs p_ne h
  simp [pure, Except.pure] at h

/-!
## Claim theorems: `main` (C6, C7)
-/

/-- C6: `main` of both scripts subscripts the `corpus`, `feature` and
`param` sections and their hyperparameter sub-keys directly, with no
defaults and no exception handling.  For every well-typed config that is
missing any required key (run against a directory without a pre-existing
`complete.txt`, which would raise first), the run raises an uncaught
`KeyError`; since every config access happens in `main` before `do_train`'s
loop, this is before any training step. -/
theorem c6_missing_key_keyerror (c c' : Config) (fs fs' : FS) (d d' : ℕ)
    (isBest : ℕ → Bool)
    (hwt : csjWellTyped c = true) (hmiss : csjHasAllRequired c = false)
    (hce : fs.completeExists = false)
    (hwt' : timitWellTyped c' = true) (hmiss' : timitHasAllRequired c' = false)
    (hce' : fs'.completeExists = false) :
    isKeyError (csjMain c fs d) = true ∧
    isKeyError (timitMain c' fs' d' isBest) = true := by
  constructor
  · cases hr : csjMain c fs d with
    | ok r => exact absurd (csjMain_ok_inv hr).1 (by simp [hmiss])
    | error e =>
        obtain ⟨k, rfl⟩ := csjMain_err_keyError hwt hce hr
        rfl
  · cases hr : timitMain c' fs' d' isBest with
    | ok r => exact absurd (timitMain_ok_inv hr).1 (by simp [hmiss'])
    | error e =>
        obtain ⟨k, rfl⟩ := timitMain_err_keyError hwt' hce' hr
        rfl

/-- Witness for C6: removing `param['num_epoch']` (CSJ) resp.
`corpus['label_type']` (TIMIT) from otherwise complete configs makes both
runs raise a `KeyError`. -/
theorem c6_witness :
    csjWellTyped sampleCsjConfigNoEpoch = true ∧
    csjHasAllRequired sampleCsjConfigNoEpoch = false ∧
    timitWellTyped sampleTimitConfigNoLabel = true ∧
    timitHasAllRequired sampleTimitConfigNoLabel = false ∧
    isKeyError (csjMain sampleCsjConfigNoEpoch ⟨false, false⟩ 1) = true ∧
    isKeyError (timitMain sampleTimitConfigNoLabel ⟨false, false⟩ 1
      (fun _ => false)) = true := by
  have hmain := c6_missing_key_keyerror sampleCsjConfigNoEpoch
    sampleTimitConfigNoLabel ⟨false, false⟩ ⟨false, false⟩ 1 1 (fun _ => false)
    (by decide) (by decide) rfl (by decide) (by decide) rfl
  exact ⟨by decide, by decide, by decide, by decide, hmain.1, hmain.2⟩

/-- C7: every run of `main` (either script) that reaches `do_train` has,
before the first training step, copied the given config file to
`config.yml` in the model directory and redirected stdout to `train.log`
there: the trace splits into a prefix that contains both file events and
no training step, followed by the rest of the run. -/
theorem c7_config_and_log_before_training {c c' : Config} {fs fs' : FS}
    {d d' : ℕ} {isBest : ℕ → Bool} {r r' : MainResult}
    (hc : csjMain c fs d = .ok r) (ht : timitMain c' fs' d' isBest = .ok r') :
    (∃ a b_, r.trace = a ++ b_ ∧ Event.copyConfig "config.yml" ∈ a ∧
      Event.redirectStdout "train.log" ∈ a ∧ ∀ s, Event.trainStep s ∉ a) ∧
    (∃ a b_, r'.trace = a ++ b_ ∧ Event.copyConfig "config.yml" ∈ a ∧
      Event.redirectStdout "train.log" ∈ a ∧ ∀ s, Event.trainStep s ∉ a) := by
  obtain ⟨-, -, bs, en, htr⟩ := csjMain_ok_inv hc
  obtain ⟨-, -, bs', en', htr'⟩ := timitMain_ok_inv ht
  constructor
  · refine ⟨[Event.makeModelDir, Event.deleteModelDir, Event.makeModelDir,
      Event.setProcTitle, Event.copyConfig "config.yml",
      Event.redirectStdout "train.log"], csjDoTrainTrace d bs en,
      ?_, by decide, by decide, ?_⟩
    · rw [htr]
      rfl
    · intro s
      simp
  · refine ⟨[Event.makeModelDir, Event.deleteModelDir, Event.makeModelDir,
      Event.setProcTitle, Event.copyConfig "config.yml",
      Event.redirectStdout "train.log"], timitDoTrainTrace d' bs' en' isBest,
      ?_, by decide, by decide, ?_⟩
    · rw [htr']
      rfl
    · intro s
      simp

/-- Witness for C7: complete sample configs, empty file system. -/
theorem c7_witness :
    ∃ r r', csjMain sampleCsjConfig ⟨false, false⟩ 1 = .ok r ∧
      timitMain sampleTimitConfig ⟨false, false⟩ 1 (fun _ => false) = .ok r' ∧
      (∃ a b_, r.trace = a ++ b_ ∧ Event.copyConfig "config.yml" ∈ a ∧
        Event.redirectStdout "train.log" ∈ a ∧ ∀ s, Event.trainStep s ∉ a) ∧
      (∃ a b_, r'.trace = a ++ b_ ∧ Event.copyConfig "config.yml" ∈ a ∧
        Event.redirectStdout "train.log" ∈ a ∧ ∀ s, Event.trainStep s ∉ a) := by
  refine ⟨_, _, rfl, rfl, ?_⟩
  exact @c7_config_and_log_before_training sampleCsjConfig sampleTimitConfig
    ⟨false, false⟩ ⟨false, false⟩ 1 1 (fun _ => false) _ _ rfl rfl
